import Mathlib

/-!
# harman-system file collector: embedding and verified properties

A shallow embedding of the node-resident file collector
(`internal/collector/collector.go`, `internal/config/config.go`,
`internal/telemetry/otel.go`, `cmd/collector/main.go`).

Stateful Go code is written as explicit state passing over a `World`.
The operating system, the clock, the relational store and the Go scheduler are
inputs: each call site that consults them receives its answer from an
environment value, so every definition below is a computable function.
-/

namespace Harman

/-! ## Errors and logging -/

/-- Go error values: a plain error, or `fmt.Errorf("msg: %w", cause)`. -/
inductive GoError where
  | leaf (msg : String)
  | wrap (msg : String) (cause : GoError)
deriving DecidableEq, Repr

inductive LogLevel where
  | Debug | Info | Warn | Error
deriving DecidableEq, Repr

/-- One `slog` call: level and message (the key/value attributes are dropped). -/
structure LogEntry where
  level : LogLevel
  msg : String
deriving DecidableEq, Repr

/-! ## internal/models -/

/-- Row of table `file_collections` (models.FileCollection). Times are
nanoseconds since the epoch. -/
structure FileCollection where
  ID : Nat
  NodeName : String
  MountPath : String
  CollectedAt : Int
  FileCount : Int
deriving DecidableEq, Repr

/-- Row of table `collected_files` (models.CollectedFile). -/
structure CollectedFile where
  ID : Nat
  CollectionID : Nat
  FileName : String
deriving DecidableEq, Repr

/-! ## internal/config -/

structure DatabaseConfig where
  Host : String
  Port : Int
  User : String
  Password : String
  Database : String
  Charset : String
deriving DecidableEq, Repr

/-- The field `CollectInterval` is a `time.Duration`: signed 64-bit nanoseconds. -/
structure CollectorConfig where
  MountPath : String
  CollectInterval : Int
deriving DecidableEq, Repr

structure Config where
  Database : DatabaseConfig
  Collector : CollectorConfig
  NodeName : String
  LogLevel : String
deriving DecidableEq, Repr

/-! ## The relational store -/

/-- Committed state of the store: the rows of the two tables, the two
auto-increment counters, and a log of the row count of every attempted INSERT
statement. Counters and statement log are not transactional. -/
structure DB where
  file_collections : List FileCollection
  collected_files : List CollectedFile
  nextCollectionID : Nat
  nextFileID : Nat
  statementLog : List Nat
deriving DecidableEq, Repr

/-- Where the store fails during one `saveToDatabase` call: at BEGIN, at the
k-th write statement of the transaction (statement 0 is the snapshot insert,
statement k+1 the k-th child batch), or at COMMIT. -/
structure StoreFaults where
  begin : Option GoError
  stmt : Nat → Option GoError
  commit : Option GoError

/-- An open transaction: a working copy of the store and the number of write
statements issued so far. -/
structure Tx where
  db : DB
  stmts : Nat

/-- Modelled from the spec: rollback of a gorm transaction (library code outside
the repository). The tables return to their committed rows; auto-increment
counters and the statement log keep what the transaction consumed. -/
def Tx.rollback (committed : DB) (tx : Tx) : DB :=
  { tx.db with
    file_collections := committed.file_collections
    collected_files := committed.collected_files }

/-- Modelled from the spec: a value stored in a `datetime(3)` column
("`collected_at`: ... millisecond precision"): the nanosecond reading cut to
whole milliseconds. -/
def datetime3 (t : Int) : Int :=
  t - t % 1000000

/-- Modelled from the spec: `tx.Create(&collection)` of gorm (library code
outside the repository): "Inserts the snapshot row first (obtaining its assigned
key)". The stored row carries `collected_at` at the precision of its column;
the struct handed back to the caller has its store-assigned ID filled in. -/
def Tx.Create (fl : StoreFaults) (tx : Tx) (c : FileCollection) :
    Tx × Except GoError FileCollection :=
  let logged : DB := { tx.db with statementLog := tx.db.statementLog ++ [1] }
  match fl.stmt tx.stmts with
  | some e => (⟨logged, tx.stmts + 1⟩, .error e)
  | none =>
    let row : FileCollection :=
      { c with ID := tx.db.nextCollectionID, CollectedAt := datetime3 c.CollectedAt }
    (⟨{ logged with
          file_collections := tx.db.file_collections ++ [row]
          nextCollectionID := tx.db.nextCollectionID + 1 }, tx.stmts + 1⟩,
      .ok { c with ID := tx.db.nextCollectionID })

/-- Modelled from the spec: the store assigns consecutive surrogate keys to the
rows of one multi-row INSERT ("`id`: store-assigned surrogate key"). -/
def assignIDs (start : Nat) : List CollectedFile → List CollectedFile
  | [] => []
  | r :: rs => { r with ID := start } :: assignIDs (start + 1) rs

/-- Modelled from the spec: one "underlying write" of gorm's `CreateInBatches`
(library code outside the repository), a multi-row INSERT into
`collected_files` inside the transaction. -/
def Tx.insertBatch (fl : StoreFaults) (tx : Tx) (batch : List CollectedFile) :
    Tx × Option GoError :=
  let logged : DB := { tx.db with statementLog := tx.db.statementLog ++ [batch.length] }
  match fl.stmt tx.stmts with
  | some e => (⟨logged, tx.stmts + 1⟩, some e)
  | none =>
    (⟨{ logged with
          collected_files := tx.db.collected_files ++ assignIDs tx.db.nextFileID batch
          nextFileID := tx.db.nextFileID + batch.length }, tx.stmts + 1⟩, none)

/-- Modelled from the spec: the loop of gorm's `CreateInBatches` (library code
outside the repository), "chunked into batches of at most 100 rows per
underlying write":
`for i := 0; i < len; i += batchSize { ends := min(i+batchSize, len); insert rows[i:ends] }`,
stopping at the first failing statement. `fuel` bounds the iterations. -/
def createInBatchesLoop (fl : StoreFaults) (rows : List CollectedFile) (batchSize : Nat) :
    Nat → Nat → Tx → Tx × Option GoError
  | 0, _, tx => (tx, none)
  | fuel + 1, i, tx =>
    if i < rows.length then
      let ends := if i + batchSize > rows.length then rows.length else i + batchSize
      match tx.insertBatch fl ((rows.drop i).take (ends - i)) with
      | (tx1, some e) => (tx1, some e)
      | (tx1, none) => createInBatchesLoop fl rows batchSize fuel (i + batchSize) tx1
    else (tx, none)

/-- Modelled from the spec: `tx.CreateInBatches(rows, batchSize)` of gorm (library
code outside the repository): "inserts all CollectedFile rows ... chunked into
batches of at most 100 rows per underlying write ... all batches are part of the
same transaction". With a positive batch size the loop needs at most
`rows.length` iterations, which is the fuel given. -/
def Tx.CreateInBatches (fl : StoreFaults) (tx : Tx) (rows : List CollectedFile)
    (batchSize : Nat) : Tx × Option GoError :=
  createInBatchesLoop fl rows batchSize rows.length 0 tx

/-! ## The operating system -/

/-- A directory entry as returned by `os.ReadDir`. -/
structure DirEntry where
  Name : String
  IsDir : Bool
deriving DecidableEq, Repr

/-- Outcome of `os.Stat`: an error for which `os.IsNotExist` holds, any other
error, or file information (of which only `IsDir()` is consulted). -/
inductive StatResult where
  | notExist (err : GoError)
  | failed (err : GoError)
  | info (isDir : Bool)
deriving DecidableEq, Repr

/-- Answers of the file system to the two calls the scanner makes. -/
structure FileSystem where
  Stat : String → StatResult
  ReadDir : String → Except GoError (List DirEntry)

/-! ## Telemetry -/

/-- One `Add` or `Record` call on an instrument: the value and its attributes. -/
structure Measurement where
  value : Int
  attrs : List (String × String)
deriving DecidableEq, Repr

/-- The five instruments held by the Collector, each as the list of calls made
on it so far. -/
structure Instruments where
  collectionCount : List Measurement
  collectionFiles : List Measurement
  collectionDuration : List Measurement
  dbOperationDuration : List Measurement
  collectionErrors : List Measurement
deriving DecidableEq, Repr

/-- Calls made on the tracer and its spans. -/
inductive SpanEvent where
  | start (name : String)
  | finish (name : String)
  | recordError (name : String) (err : GoError)
  | setAttributes (name : String) (attrs : List (String × Int))
deriving DecidableEq, Repr

/-- Everything a collection cycle can change. `tracerSet` and `meterSet` are
the package-level variables `tracer` and `meter` of internal/telemetry (nil or
not); `saveCalls` and `cycleCalls` count the calls of `saveToDatabase` and of
`collectAndStore`. -/
structure World where
  db : DB
  inst : Instruments
  spans : List SpanEvent
  logs : List LogEntry
  tracerSet : Bool
  meterSet : Bool
  saveCalls : Nat
  cycleCalls : Nat
deriving DecidableEq, Repr

def World.log (w : World) (l : LogLevel) (msg : String) : World :=
  { w with logs := w.logs ++ [⟨l, msg⟩] }

def World.span (w : World) (e : SpanEvent) : World :=
  { w with spans := w.spans ++ [e] }

/-- Modelled from the spec: `gorm.DB.Transaction` (library code outside the
repository): "Opens one store transaction ... Any failure at any point aborts
the whole transaction; no partial rows are visible." The callback runs on a
working copy of the store, which is committed only when the callback returns
nil and COMMIT succeeds; what the callback does to the rest of the world
(logging) is kept either way. -/
def Transaction (fl : StoreFaults) (w : World) (fc : Tx → World → (Tx × World) × Option GoError) :
    World × Option GoError :=
  match fl.begin with
  | some e => (w, some e)
  | none =>
    match fc ⟨w.db, 0⟩ w with
    | ((tx, w1), some e) => ({ w1 with db := tx.rollback w.db }, some e)
    | ((tx, w1), none) =>
      match fl.commit with
      | some e => ({ w1 with db := tx.rollback w.db }, some e)
      | none => ({ w1 with db := tx.db }, none)

/-! ## internal/collector: scanDirectory and saveToDatabase -/

/-- The `for _, entry := range entries` loop of `scanDirectory`. -/
def scanLoop (entries : List DirEntry) (files : List String) : List String :=
  entries.foldl (fun files entry => if !entry.IsDir then files ++ [entry.Name] else files) files

/-- The method `Collector.scanDirectory`. -/
def scanDirectory (fs : FileSystem) (dirPath : String) (w : World) :
    World × Except GoError (List String) :=
  let files : List String := []
  match fs.Stat dirPath with
  | .notExist _ => (w.log .Warn "디렉토리가 존재하지 않습니다", .ok files)
  | .failed err => (w, .error (.wrap "디렉토리 정보 조회 실패" err))
  | .info isDir =>
    if !isDir then
      (w, .error (.leaf ("지정된 경로가 디렉토리가 아닙니다: " ++ dirPath)))
    else
      match fs.ReadDir dirPath with
      | .error err => (w, .error (.wrap "디렉토리 읽기 실패" err))
      | .ok entries => (w, .ok (scanLoop entries files))

/-- The callback passed to `c.db.Transaction` in `saveToDatabase`. `now` is
the reading of `time.Now()` taken when the row is built. -/
def saveToDatabaseFn (cfg : Config) (fl : StoreFaults) (now : Int) (files : List String)
    (tx : Tx) (w : World) : (Tx × World) × Option GoError :=
  let collection : FileCollection :=
    { ID := 0
      NodeName := cfg.NodeName
      MountPath := cfg.Collector.MountPath
      CollectedAt := now
      FileCount := files.length }
  match tx.Create fl collection with
  | (tx1, .error err) => ((tx1, w), some (.wrap "file_collections 삽입 실패" err))
  | (tx1, .ok collection) =>
    if files.length > 0 then
      let collectedFiles : List CollectedFile :=
        files.map (fun fileName => { ID := 0, CollectionID := collection.ID, FileName := fileName })
      match tx1.CreateInBatches fl collectedFiles 100 with
      | (tx2, some err) => ((tx2, w), some (.wrap "collected_files 배치 삽입 실패" err))
      | (tx2, none) => ((tx2, w.log .Debug "데이터베이스 저장 성공"), none)
    else ((tx1, w.log .Debug "데이터베이스 저장 성공"), none)

/-- The method `Collector.saveToDatabase`. -/
def saveToDatabase (cfg : Config) (fl : StoreFaults) (now : Int) (files : List String)
    (w : World) : World × Option GoError :=
  Transaction fl { w with saveCalls := w.saveCalls + 1 } (saveToDatabaseFn cfg fl now files)

/-! ## internal/collector: one collection cycle -/

/-- Readings of the wall clock at the five places where one cycle consults it,
in program order: `startTime := time.Now()`, `dbStartTime := time.Now()`, the
`time.Now()` inside `saveToDatabase`, `time.Since(dbStartTime)` and
`time.Since(startTime)`. -/
structure CycleClock where
  startTime : Int
  dbStartTime : Int
  saveNow : Int
  dbEnd : Int
  cycleEnd : Int
deriving DecidableEq, Repr

/-- What the surroundings answer during one cycle. -/
structure CycleEnv where
  fs : FileSystem
  clock : CycleClock
  faults : StoreFaults

/-- The method `Duration.Milliseconds` applied to `time.Since(t)` read at `now`:
whole milliseconds, rounded toward zero. -/
def sinceMilliseconds (t now : Int) : Int :=
  Int.tdiv (now - t) 1000000

/-- Attributes `error_type` and `node_name` of an error count. -/
def errorAttrs (cfg : Config) (errorType : String) : List (String × String) :=
  [("error_type", errorType), ("node_name", cfg.NodeName)]

/-- Attribute `node_name` of the success measurements. -/
def nodeAttrs (cfg : Config) : List (String × String) :=
  [("node_name", cfg.NodeName)]

/-- The call `c.collectionErrors.Add(ctx, 1, ...)`. -/
def addCollectionError (cfg : Config) (errorType : String) (w : World) : World :=
  { w with inst := { w.inst with
      collectionErrors := w.inst.collectionErrors ++ [⟨1, errorAttrs cfg errorType⟩] } }

/-- The four calls that record a successful cycle: `collectionCount.Add 1`,
`collectionFiles.Add fileCount`, `collectionDuration.Record`,
`dbOperationDuration.Record`. Histogram values are the whole milliseconds that
the code converts to float64. -/
def recordSuccess (cfg : Config) (fileCount : Nat) (durationMs dbDurationMs : Int)
    (w : World) : World :=
  { w with inst := { w.inst with
      collectionCount := w.inst.collectionCount ++ [⟨1, nodeAttrs cfg⟩]
      collectionFiles := w.inst.collectionFiles ++ [⟨fileCount, nodeAttrs cfg⟩]
      collectionDuration := w.inst.collectionDuration ++ [⟨durationMs, nodeAttrs cfg⟩]
      dbOperationDuration := w.inst.dbOperationDuration ++ [⟨dbDurationMs, nodeAttrs cfg⟩] } }

/-- The method `Collector.collectAndStoreWithoutTrace`. -/
def collectAndStoreWithoutTrace (cfg : Config) (env : CycleEnv) (w : World) :
    World × Option GoError :=
  let startTime := env.clock.startTime
  match scanDirectory env.fs cfg.Collector.MountPath w with
  | (w, .error err) =>
    let w := addCollectionError cfg "scan_error" w
    (w, some (.wrap "디렉토리 스캔 실패" err))
  | (w, .ok files) =>
    let fileCount := files.length
    let w := w.log .Info "파일 스캔 완료"
    let dbStartTime := env.clock.dbStartTime
    match saveToDatabase cfg env.faults env.clock.saveNow files w with
    | (w, some err) =>
      let w := addCollectionError cfg "db_error" w
      (w, some (.wrap "데이터베이스 저장 실패" err))
    | (w, none) =>
      let dbDurationMs := sinceMilliseconds dbStartTime env.clock.dbEnd
      let durationMs := sinceMilliseconds startTime env.clock.cycleEnd
      let w := recordSuccess cfg fileCount durationMs dbDurationMs w
      let w := w.log .Info "파일 수집 완료"
      (w, none)

/-- The traced branch of `Collector.collectAndStore` (tracer not nil). The
deferred `span.End()` is the last event of every exit. -/
def collectAndStoreTraced (cfg : Config) (env : CycleEnv) (w : World) :
    World × Option GoError :=
  let w := w.span (.start "file_collection")
  let startTime := env.clock.startTime
  let w := w.span (.start "scan_directory")
  match scanDirectory env.fs cfg.Collector.MountPath w with
  | (w, .error err) =>
    let w := w.span (.finish "scan_directory")
    let w := addCollectionError cfg "scan_error" w
    let w := w.span (.recordError "file_collection" err)
    (w.span (.finish "file_collection"), some (.wrap "디렉토리 스캔 실패" err))
  | (w, .ok files) =>
    let w := w.span (.finish "scan_directory")
    let fileCount := files.length
    let w := w.span (.setAttributes "scan_directory" [("file_count", fileCount)])
    let w := w.log .Info "파일 스캔 완료"
    let w := w.span (.start "save_to_database")
    let dbStartTime := env.clock.dbStartTime
    match saveToDatabase cfg env.faults env.clock.saveNow files w with
    | (w, some err) =>
      let w := addCollectionError cfg "db_error" w
      let w := w.span (.recordError "save_to_database" err)
      let w := w.span (.finish "save_to_database")
      let w := w.span (.recordError "file_collection" err)
      (w.span (.finish "file_collection"), some (.wrap "데이터베이스 저장 실패" err))
    | (w, none) =>
      let dbDurationMs := sinceMilliseconds dbStartTime env.clock.dbEnd
      let w := w.span (.setAttributes "save_to_database"
        [("file_count", fileCount), ("db_duration_ms", dbDurationMs)])
      let w := w.span (.finish "save_to_database")
      let durationMs := sinceMilliseconds startTime env.clock.cycleEnd
      let w := recordSuccess cfg fileCount durationMs dbDurationMs w
      let w := w.span (.setAttributes "file_collection"
        [("file_count", fileCount), ("duration_ms", durationMs)])
      let w := w.log .Info "파일 수집 완료"
      (w.span (.finish "file_collection"), none)

/-- The method `Collector.collectAndStore`. -/
def collectAndStore (cfg : Config) (env : CycleEnv) (w : World) : World × Option GoError :=
  let w := { w with cycleCalls := w.cycleCalls + 1 }
  if !w.tracerSet then collectAndStoreWithoutTrace cfg env w
  else collectAndStoreTraced cfg env w

/-! ## internal/collector: the run loop -/

/-- One evaluation of the `select` in `Start`: whether `ctx.Done()` is closed,
whether a tick is waiting on `ticker.C`, and which case the Go runtime picks
when both can proceed (Go chooses among ready cases pseudo-randomly). -/
structure Select where
  done : Bool
  tick : Bool
  pickTick : Bool
deriving DecidableEq, Repr

inductive SelectCase where
  | ctxDone | tickerC | blocked
deriving DecidableEq, Repr

/-- The case a `select` over `ctx.Done()` and `ticker.C` takes. -/
def Select.chosen (e : Select) : SelectCase :=
  if e.done && e.tick then (if e.pickTick then .tickerC else .ctxDone)
  else if e.done then .ctxDone
  else if e.tick then .tickerC
  else .blocked

/-- How a run of `Start` ends: it returned an error value, it panicked, or it
is still in its loop when the given schedule is used up. -/
inductive StartOutcome where
  | returned (err : GoError)
  | panicked (msg : String)
  | running
deriving DecidableEq, Repr

/-- The `for { select { ... } }` loop of `Start`. The surroundings of a cycle
are looked up by the number of cycles run before it; `ctxErr` is what
`ctx.Err()` reports once the context is cancelled. -/
def startLoop (cfg : Config) (ctxErr : GoError) (envs : Nat → CycleEnv) :
    List Select → World → World × StartOutcome
  | [], w => (w, .running)
  | e :: rest, w =>
    match e.chosen with
    | .ctxDone => (w.log .Info "파일 수집기 종료 신호 수신", .returned ctxErr)
    | .tickerC =>
      match collectAndStore cfg (envs w.cycleCalls) w with
      | (w, some _) => startLoop cfg ctxErr envs rest (w.log .Error "파일 수집 실패")
      | (w, none) => startLoop cfg ctxErr envs rest w
    | .blocked => startLoop cfg ctxErr envs rest w

/-- The method `Collector.Start`. `time.NewTicker(d)` panics unless `d > 0`. -/
def Start (cfg : Config) (ctxErr : GoError) (envs : Nat → CycleEnv) (sched : List Select)
    (w : World) : World × StartOutcome :=
  let w := w.log .Info "파일 수집기 시작"
  let w := match collectAndStore cfg (envs w.cycleCalls) w with
    | (w, some _) => w.log .Error "초기 파일 수집 실패"
    | (w, none) => w
  if cfg.Collector.CollectInterval ≤ 0 then
    (w, .panicked "non-positive interval for NewTicker")
  else startLoop cfg ctxErr envs sched w

/-! ## internal/config: LoadConfig -/

/-- Go's `int64(x)` wrap-around of a mathematical integer. -/
def wrapInt64 (x : Int) : Int :=
  (x + 2 ^ 63) % 2 ^ 64 - 2 ^ 63

/-- The function `strconv.Atoi` on a 64-bit platform: an optional sign followed
by one or more decimal digits, in the range of int. -/
def Atoi (s : String) : Except GoError Int :=
  let (neg, digits) : Bool × List Char :=
    match s.toList with
    | '-' :: r => (true, r)
    | '+' :: r => (false, r)
    | r => (false, r)
  if digits.isEmpty || !digits.all Char.isDigit then
    .error (.leaf "strconv.Atoi: invalid syntax")
  else
    let n : Nat := digits.foldl (fun a c => 10 * a + (c.toNat - 48)) 0
    let v : Int := if neg then -(n : Int) else n
    if v < -(2 ^ 63) || v > 2 ^ 63 - 1 then
      .error (.leaf "strconv.Atoi: value out of range")
    else .ok v

/-- The function `getEnv` of internal/config; `os.Getenv` yields "" when unset. -/
def getEnv (getenv : String → String) (key defaultValue : String) : String :=
  if getenv key ≠ "" then getenv key else defaultValue

/-- The constant `time.Minute` in nanoseconds. -/
def Minute : Int := 60000000000

/-- The function `config.LoadConfig`. -/
def LoadConfig (getenv : String → String) : Except GoError Config :=
  match Atoi (getEnv getenv "DB_PORT" "3306") with
  | .error err => .error (.wrap "잘못된 DB_PORT 값" err)
  | .ok dbPort =>
    match Atoi (getEnv getenv "COLLECT_INTERVAL_MINUTES" "1") with
    | .error err => .error (.wrap "잘못된 COLLECT_INTERVAL_MINUTES 값" err)
    | .ok intervalMinutes =>
      let nodeName := getenv "NODE_NAME"
      if nodeName = "" then
        .error (.leaf "NODE_NAME 환경 변수가 설정되지 않았습니다")
      else
        .ok
          { Database :=
              { Host := getEnv getenv "DB_HOST" "localhost"
                Port := dbPort
                User := getEnv getenv "DB_USER" "root"
                Password := getenv "DB_PASSWORD"
                Database := getEnv getenv "DB_NAME" "harman"
                Charset := "utf8mb4" }
            Collector :=
              { MountPath := getEnv getenv "MOUNT_PATH" "/mnt/harman"
                CollectInterval := wrapInt64 (intervalMinutes * Minute) }
            NodeName := nodeName
            LogLevel := getEnv getenv "LOG_LEVEL" "info" }

/-! ## internal/telemetry and cmd/collector -/

/-- Outcomes of the three fallible library calls of `InitTelemetry`:
`resource.New`, `otlptracegrpc.New`, `otlpmetricgrpc.New`. -/
structure TelemetryEnv where
  resourceNew : Option GoError
  traceExporterNew : Option GoError
  metricExporterNew : Option GoError

/-- The function `telemetry.InitTelemetry`: the package variables `tracer` and
`meter` are assigned only after the last fallible call has succeeded. -/
def InitTelemetry (te : TelemetryEnv) (w : World) : World × Option GoError :=
  match te.resourceNew with
  | some err => (w, some (.wrap "리소스 생성 실패" err))
  | none =>
    match te.traceExporterNew with
    | some err => (w, some (.wrap "트레이스 익스포터 생성 실패" err))
    | none =>
      match te.metricExporterNew with
      | some err => (w, some (.wrap "메트릭 익스포터 생성 실패" err))
      | none =>
        let w := { w with tracerSet := true, meterSet := true }
        (w.log .Info "OpenTelemetry 초기화 완료", none)

/-- The function `collector.NewCollector`, as far as its result is an error or
a Collector: `telemetry.Meter()` nil is rejected, and so is a failure of any of
the five instrument constructors (`instrumentErr i` for the i-th). -/
def NewCollector (instrumentErr : Nat → Option GoError) (w : World) : Option GoError :=
  if !w.meterSet then some (.leaf "메터가 초기화되지 않았습니다")
  else
    match instrumentErr 0 with
    | some err => some (.wrap "collection_count 메트릭 생성 실패" err)
    | none =>
    match instrumentErr 1 with
    | some err => some (.wrap "collection_files 메트릭 생성 실패" err)
    | none =>
    match instrumentErr 2 with
    | some err => some (.wrap "collection_duration 메트릭 생성 실패" err)
    | none =>
    match instrumentErr 3 with
    | some err => some (.wrap "db_operation_duration 메트릭 생성 실패" err)
    | none =>
    match instrumentErr 4 with
    | some err => some (.wrap "collection_errors 메트릭 생성 실패" err)
    | none => none

/-- What `main` finds around it: the environment variables, the outcomes of
`database.NewDB` and `database.MigrateDB`, of telemetry initialisation and of
instrument construction, and the surroundings of the run loop. -/
structure MainEnv where
  getenv : String → String
  newDB : Option GoError
  migrateDB : Option GoError
  telemetry : TelemetryEnv
  instrumentErr : Nat → Option GoError
  ctxErr : GoError
  cycles : Nat → CycleEnv
  sched : List Select

/-- How the process ends: `os.Exit(code)` or return from `main` (code 0), a
panic, or still running when the schedule is used up. -/
inductive ProcessEnd where
  | exit (code : Nat)
  | panic (msg : String)
  | running
deriving DecidableEq, Repr

/-- The error value `context.Canceled`. -/
def contextCanceled : GoError := .leaf "context canceled"

/-- The function `main` of cmd/collector. The goroutine running `Start` and
the signal listener are sequentialised: the signal that makes `main` call
`cancel()` is the `done` flag of the schedule, and `main` is taken to its end
once `Start` is over. -/
def main (env : MainEnv) (w : World) : World × ProcessEnd :=
  let w := w.log .Info "로거 초기화 완료"
  match LoadConfig env.getenv with
  | .error _ => (w.log .Error "설정 로드 실패", .exit 1)
  | .ok cfg =>
    let w := w.log .Info "로거 초기화 완료"
    let w := w.log .Info "설정 로드 완료"
    match env.newDB with
    | some _ => (w.log .Error "데이터베이스 연결 실패", .exit 1)
    | none =>
      match env.migrateDB with
      | some _ => (w.log .Error "데이터베이스 마이그레이션 실패", .exit 1)
      | none =>
        let w := match InitTelemetry env.telemetry w with
          | (w, some _) => w.log .Warn "OpenTelemetry 초기화 실패"
          | (w, none) => w
        match NewCollector env.instrumentErr w with
        | some _ => (w.log .Error "파일 수집기 생성 실패", .exit 1)
        | none =>
          match Start cfg env.ctxErr env.cycles env.sched w with
          | (w, .panicked msg) => (w, .panic msg)
          | (w, .running) => (w, .running)
          | (w, .returned err) =>
            let w := if err ≠ contextCanceled then w.log .Error "수집기 에러 발생" else w
            (w.log .Info "파일 수집기 종료", .exit 0)

/-- The world at process start: nothing logged or measured, the package
variables of internal/telemetry still nil. -/
def World.initial (db : DB) : World :=
  { db := db
    inst := ⟨[], [], [], [], []⟩
    spans := []
    logs := []
    tracerSet := false
    meterSet := false
    saveCalls := 0
    cycleCalls := 0 }

/-! ## Specification vocabulary and concrete inputs -/

/-- The child rows `saveToDatabase` builds for the snapshot with key `id`. -/
def childRows (id : Nat) (files : List String) : List CollectedFile :=
  files.map (fun fileName => { ID := 0, CollectionID := id, FileName := fileName })

/-- The snapshot row `saveToDatabase` commits into store `db`. -/
def snapshotRow (cfg : Config) (now : Int) (files : List String) (db : DB) : FileCollection :=
  { ID := db.nextCollectionID
    NodeName := cfg.NodeName
    MountPath := cfg.Collector.MountPath
    CollectedAt := datetime3 now
    FileCount := files.length }

/-- The store accepts every statement of one `saveToDatabase` call over `n`
file names: BEGIN, the snapshot insert, each of the child batches (batch `j`
exists iff `j * 100 < n`), and COMMIT. -/
def StoreFaults.noneFor (fl : StoreFaults) (n : Nat) : Prop :=
  fl.begin = none ∧ fl.stmt 0 = none ∧ (∀ j, j * 100 < n → fl.stmt (j + 1) = none) ∧
    fl.commit = none

/-- Store `new` is store `old` plus one committed snapshot of `files` taken at
`now`: one new `file_collections` row, its child rows in input order with
consecutive keys, written by one single-row statement followed by statements of
between 1 and 100 rows. -/
def Committed (cfg : Config) (now : Int) (files : List String) (old new : DB) : Prop :=
  new.file_collections = old.file_collections ++ [snapshotRow cfg now files old] ∧
  new.collected_files
    = old.collected_files ++ assignIDs old.nextFileID (childRows old.nextCollectionID files) ∧
  ∃ L, new.statementLog = old.statementLog ++ 1 :: L ∧ (∀ x ∈ L, 0 < x ∧ x ≤ 100) ∧
    L.sum = files.length

/-- Stores `old` and `new` hold the same rows in both tables. -/
def RowsUnchanged (old new : DB) : Prop :=
  new.file_collections = old.file_collections ∧ new.collected_files = old.collected_files

/-- The parts of the world a cycle may touch besides the instruments: the store,
the log, the span events, and the two call counters. -/
def World.touched (w : World) (db : DB) (l : List LogEntry) (sp : List SpanEvent)
    (saves : Nat) : World :=
  { w with
    db := db
    logs := w.logs ++ l
    spans := w.spans ++ sp
    saveCalls := w.saveCalls + saves
    cycleCalls := w.cycleCalls + 1 }

/-- A configuration as `LoadConfig` builds it from NODE_NAME=node-1 alone. -/
def exampleConfig : Config :=
  { Database :=
      { Host := "localhost", Port := 3306, User := "root", Password := "",
        Database := "harman", Charset := "utf8mb4" }
    Collector := { MountPath := "/mnt/harman", CollectInterval := 60000000000 }
    NodeName := "node-1"
    LogLevel := "info" }

/-- A store that accepts everything. -/
def noFaults : StoreFaults := ⟨none, fun _ => none, none⟩

/-- A freshly migrated store: both tables empty, keys starting at 1. -/
def emptyDB : DB := ⟨[], [], 1, 1, []⟩

/-- A directory holding files `a.txt`, `b.log` and subdirectory `sub`. -/
def exampleFS : FileSystem :=
  { Stat := fun _ => .info true
    ReadDir := fun _ => .ok [⟨"a.txt", false⟩, ⟨"b.log", false⟩, ⟨"sub", true⟩] }

/-- A mount path that is not there. -/
def missingFS : FileSystem :=
  { Stat := fun _ => .notExist (.leaf "no such file or directory")
    ReadDir := fun _ => .error (.leaf "no such file or directory") }

/-- A mount path that is a regular file. -/
def regularFileFS : FileSystem :=
  { Stat := fun _ => .info false
    ReadDir := fun _ => .error (.leaf "not a directory") }

/-- Clock readings of one cycle, in nanoseconds. -/
def exampleClock : CycleClock :=
  { startTime := 1000000, dbStartTime := 2000000, saveNow := 3000000,
    dbEnd := 6000000, cycleEnd := 9000000 }

/-- Clock readings of a cycle that is over within one millisecond. -/
def fastClock : CycleClock :=
  { startTime := 1000900, dbStartTime := 1000920, saveNow := 1000950,
    dbEnd := 1000980, cycleEnd := 1000990 }

/-- The instruments after one more error count of kind `errorType`. -/
def Instruments.withError (i : Instruments) (cfg : Config) (errorType : String) : Instruments :=
  { i with collectionErrors :=
      i.collectionErrors ++ [⟨1, [("error_type", errorType), ("node_name", cfg.NodeName)]⟩] }

/-- The instruments after one successful cycle of `n` files. -/
def Instruments.withSuccess (i : Instruments) (cfg : Config) (n : Nat) (durationMs dbMs : Int) :
    Instruments :=
  { collectionCount := i.collectionCount ++ [⟨1, [("node_name", cfg.NodeName)]⟩]
    collectionFiles := i.collectionFiles ++ [⟨n, [("node_name", cfg.NodeName)]⟩]
    collectionDuration := i.collectionDuration ++ [⟨durationMs, [("node_name", cfg.NodeName)]⟩]
    dbOperationDuration := i.dbOperationDuration ++ [⟨dbMs, [("node_name", cfg.NodeName)]⟩]
    collectionErrors := i.collectionErrors }

/-- The world in which `Start` reaches its ticker: one cycle has run. -/
def afterFirstCycle (cfg : Config) (envs : Nat → CycleEnv) (w : World) : World :=
  match collectAndStore cfg (envs (w.log .Info "파일 수집기 시작").cycleCalls)
      (w.log .Info "파일 수집기 시작") with
  | (w, some _) => w.log .Error "초기 파일 수집 실패"
  | (w, none) => w

/-- The surroundings of every cycle in the examples: the example directory,
the example clock, a store that accepts everything. -/
def exampleCycles : Nat → CycleEnv := fun _ => ⟨exampleFS, exampleClock, noFaults⟩

/-- Environment variables NODE_NAME=node-1 and COLLECT_INTERVAL_MINUTES=0. -/
def zeroIntervalEnv : String → String := fun key =>
  if key = "NODE_NAME" then "node-1"
  else if key = "COLLECT_INTERVAL_MINUTES" then "0"
  else ""

/-- A startup in which only the trace exporter cannot be created, followed by
one tick and a cancellation. -/
def telemetryDownEnv : MainEnv :=
  { getenv := fun key => if key = "NODE_NAME" then "node-1" else ""
    newDB := none
    migrateDB := none
    telemetry := ⟨none, some (.leaf "trace exporter unavailable"), none⟩
    instrumentErr := fun _ => none
    ctxErr := contextCanceled
    cycles := exampleCycles
    sched := [⟨false, true, false⟩, ⟨true, false, false⟩] }

/-! ## Lemmas on the scanner -/

theorem scanLoop_eq (entries : List DirEntry) (files : List String) :
    scanLoop entries files
      = files ++ (entries.filter (fun e => !e.IsDir)).map DirEntry.Name := by
  induction entries generalizing files with
  | nil => simp [scanLoop]
  | cons e es ih =>
    have step : scanLoop (e :: es) files
        = scanLoop es (if !e.IsDir then files ++ [e.Name] else files) := rfl
    rw [step, ih]
    cases hd : e.IsDir <;> simp [hd]

/-- The outcome of a scan does not depend on the world it starts in. -/
theorem scanDirectory_snd (fs : FileSystem) (p : String) (w w1 : World) :
    (scanDirectory fs p w).2 = (scanDirectory fs p w1).2 := by
  unfold scanDirectory
  cases fs.Stat p with
  | notExist e => rfl
  | failed e => rfl
  | info isDir =>
    cases isDir with
    | false => rfl
    | true => cases fs.ReadDir p <;> rfl

/-- A scan only ever writes to the log. -/
theorem scanDirectory_fst (fs : FileSystem) (p : String) (w : World) :
    ∃ l, (scanDirectory fs p w).1 = { w with logs := w.logs ++ l } := by
  unfold scanDirectory
  cases fs.Stat p with
  | notExist e => exact ⟨[⟨.Warn, "디렉토리가 존재하지 않습니다"⟩], rfl⟩
  | failed e => exact ⟨[], by simp⟩
  | info isDir =>
    cases isDir with
    | false => exact ⟨[], by simp⟩
    | true => cases fs.ReadDir p <;> exact ⟨[], by simp⟩

/-- A failed scan leaves even the log alone. -/
theorem scanDirectory_error_fst (fs : FileSystem) (p : String) (w : World) (err : GoError)
    (h : (scanDirectory fs p w).2 = .error err) : (scanDirectory fs p w).1 = w := by
  unfold scanDirectory at h ⊢
  cases hs : fs.Stat p with
  | notExist e => simp [hs] at h
  | failed e => rfl
  | info isDir =>
    cases isDir with
    | false => rfl
    | true => cases fs.ReadDir p <;> rfl

/-! ## Lemmas on the store -/

theorem assignIDs_length (start : Nat) (rows : List CollectedFile) :
    (assignIDs start rows).length = rows.length := by
  induction rows generalizing start with
  | nil => rfl
  | cons r rs ih => simp [assignIDs, ih]

theorem assignIDs_append (start : Nat) (a b : List CollectedFile) :
    assignIDs start (a ++ b) = assignIDs start a ++ assignIDs (start + a.length) b := by
  induction a generalizing start with
  | nil => simp [assignIDs]
  | cons r rs ih =>
    have h : start + 1 + rs.length = start + (rs.length + 1) := by omega
    show _ :: assignIDs (start + 1) (rs ++ b) = _ :: _ ++ assignIDs (start + (rs.length + 1)) b
    rw [ih, h]
    rfl

/-- The slice `rows[i:ends]` of one iteration followed by the rest of the rows. -/
theorem slice_append_drop (rows : List CollectedFile) (i bs : Nat) :
    (rows.drop i).take ((if i + bs > rows.length then rows.length else i + bs) - i)
      ++ rows.drop (i + bs) = rows.drop i := by
  by_cases h : i + bs > rows.length
  · simp only [h, if_true]
    have h1 : rows.drop (i + bs) = [] := List.drop_eq_nil_of_le (by omega)
    have h2 : (rows.drop i).take (rows.length - i) = rows.drop i :=
      List.take_of_length_le (by simp)
    rw [h1, h2, List.append_nil]
  · simp only [h, if_false]
    have h1 : i + bs - i = bs := by omega
    rw [h1, ← List.drop_drop, List.take_append_drop]

theorem slice_length (rows : List CollectedFile) (i bs : Nat) (hi : i < rows.length) :
    ((rows.drop i).take ((if i + bs > rows.length then rows.length else i + bs) - i)).length
      = min bs (rows.length - i) := by
  rw [List.length_take, List.length_drop]
  by_cases h : i + bs > rows.length
  · simp only [h, if_true]; omega
  · simp only [h, if_false]; omega

/-- The batch loop started at index `i` with enough fuel: it succeeds exactly
when none of the statements it issues fails (batch `j` exists iff
`j * batchSize < len - i`), and then it has appended all remaining rows, in
order, in statements of between 1 and `batchSize` rows. -/
theorem createInBatchesLoop_spec (fl : StoreFaults) (rows : List CollectedFile) (bs : Nat)
    (hbs : 0 < bs) :
    ∀ (fuel i : Nat) (tx : Tx), rows.length - i ≤ fuel →
      ((createInBatchesLoop fl rows bs fuel i tx).2 = none ↔
          ∀ j, j * bs < rows.length - i → fl.stmt (tx.stmts + j) = none) ∧
      ((createInBatchesLoop fl rows bs fuel i tx).2 = none →
        (createInBatchesLoop fl rows bs fuel i tx).1.db.collected_files
            = tx.db.collected_files ++ assignIDs tx.db.nextFileID (rows.drop i) ∧
        (createInBatchesLoop fl rows bs fuel i tx).1.db.file_collections
            = tx.db.file_collections ∧
        ∃ L, (createInBatchesLoop fl rows bs fuel i tx).1.db.statementLog
            = tx.db.statementLog ++ L ∧ (∀ x ∈ L, 0 < x ∧ x ≤ bs) ∧ L.sum = rows.length - i) := by
  intro fuel
  induction fuel with
  | zero =>
    intro i tx hf
    have hi : rows.length ≤ i := by omega
    have hd : rows.drop i = [] := List.drop_eq_nil_of_le hi
    refine ⟨⟨fun _ j hj => by omega, fun _ => rfl⟩, fun _ => ⟨?_, rfl, [], ?_, ?_, ?_⟩⟩
    · simp [createInBatchesLoop, hd, assignIDs]
    · simp [createInBatchesLoop]
    · simp
    · simp; omega
  | succ fuel ih =>
    intro i tx hf
    by_cases hi : i < rows.length
    · cases hs : fl.stmt tx.stmts with
      | some e =>
        have hr : (createInBatchesLoop fl rows bs (fuel + 1) i tx).2 = some e := by
          simp [createInBatchesLoop, hi, Tx.insertBatch, hs]
        refine ⟨⟨fun h => (by rw [hr] at h; cases h), fun h => ?_⟩, fun h => (by rw [hr] at h; cases h)⟩
        have h0 := h 0 (by omega)
        simp [hs] at h0
      | none =>
        obtain ⟨ihiff, ihok⟩ := ih (i + bs)
          (tx.insertBatch fl ((rows.drop i).take
            ((if i + bs > rows.length then rows.length else i + bs) - i))).1 (by omega)
        have hr : createInBatchesLoop fl rows bs (fuel + 1) i tx
            = createInBatchesLoop fl rows bs fuel (i + bs)
                (tx.insertBatch fl ((rows.drop i).take
                  ((if i + bs > rows.length then rows.length else i + bs) - i))).1 := by
          simp [createInBatchesLoop, hi, Tx.insertBatch, hs]
        have hstm : (tx.insertBatch fl ((rows.drop i).take
            ((if i + bs > rows.length then rows.length else i + bs) - i))).1.stmts
              = tx.stmts + 1 := by
          simp [Tx.insertBatch, hs]
        have hdb : (tx.insertBatch fl ((rows.drop i).take
            ((if i + bs > rows.length then rows.length else i + bs) - i))).1.db
              = { tx.db with
                  statementLog := tx.db.statementLog ++ [min bs (rows.length - i)]
                  collected_files := tx.db.collected_files ++ assignIDs tx.db.nextFileID
                    ((rows.drop i).take
                      ((if i + bs > rows.length then rows.length else i + bs) - i))
                  nextFileID := tx.db.nextFileID + min bs (rows.length - i) } := by
          simp [Tx.insertBatch, hs, slice_length rows i bs hi]
        rw [hr]
        rw [hstm] at ihiff
        refine ⟨?_, ?_⟩
        · rw [ihiff]
          constructor
          · intro h j hj
            cases j with
            | zero => simpa using hs
            | succ j =>
              have := h j (by rw [Nat.succ_mul] at hj; omega)
              rw [show tx.stmts + (j + 1) = tx.stmts + 1 + j by omega]
              exact this
          · intro h j hj
            have := h (j + 1) (by rw [Nat.succ_mul]; omega)
            rw [show tx.stmts + 1 + j = tx.stmts + (j + 1) by omega]
            exact this
        · intro hnone
          obtain ⟨hcf, hfc, L, hL, hLb, hLs⟩ := ihok hnone
          rw [hdb] at hcf hfc hL
          refine ⟨?_, ?_, min bs (rows.length - i) :: L, ?_, ?_, ?_⟩
          · rw [hcf]
            simp only [List.append_assoc]
            congr 1
            have hsl := slice_length rows i bs hi
            rw [← hsl, ← assignIDs_append, slice_append_drop]
          · rw [hfc]
          · rw [hL]; simp
          · intro x hx
            rcases List.mem_cons.mp hx with rfl | hx
            · exact ⟨by omega, Nat.min_le_left _ _⟩
            · exact hLb x hx
          · simp only [List.sum_cons, hLs]; omega
    · have hi2 : rows.length ≤ i := by omega
      have hd : rows.drop i = [] := List.drop_eq_nil_of_le hi2
      have hr : createInBatchesLoop fl rows bs (fuel + 1) i tx = (tx, none) := by
        simp [createInBatchesLoop, hi]
      rw [hr]
      refine ⟨⟨fun _ j hj => by omega, fun _ => rfl⟩, fun _ => ⟨?_, rfl, [], ?_, ?_, ?_⟩⟩
      · simp [hd, assignIDs]
      · simp
      · simp
      · simp; omega

theorem assignIDs_getElem? (start : Nat) (rows : List CollectedFile) (i : Nat) :
    (assignIDs start rows)[i]? = (rows[i]?).map (fun r => { r with ID := start + i }) := by
  induction rows generalizing start i with
  | nil => simp [assignIDs]
  | cons r rs ih =>
    cases i with
    | zero => simp [assignIDs]
    | succ i =>
      simp only [assignIDs, List.getElem?_cons_succ, ih]
      have : start + 1 + i = start + (i + 1) := by omega
      rw [this]

/-- What the transaction callback of `saveToDatabase` does on a fresh
transaction over `db`. -/
theorem saveToDatabaseFn_spec (cfg : Config) (fl : StoreFaults) (now : Int)
    (files : List String) (db : DB) (w : World) :
    ((saveToDatabaseFn cfg fl now files ⟨db, 0⟩ w).2 = none ↔
        fl.stmt 0 = none ∧ ∀ j, j * 100 < files.length → fl.stmt (j + 1) = none) ∧
    ((saveToDatabaseFn cfg fl now files ⟨db, 0⟩ w).2 = none →
      (saveToDatabaseFn cfg fl now files ⟨db, 0⟩ w).1.1.db.file_collections
          = db.file_collections ++ [snapshotRow cfg now files db] ∧
      (saveToDatabaseFn cfg fl now files ⟨db, 0⟩ w).1.1.db.collected_files
          = db.collected_files ++ assignIDs db.nextFileID (childRows db.nextCollectionID files) ∧
      ∃ L, (saveToDatabaseFn cfg fl now files ⟨db, 0⟩ w).1.1.db.statementLog
          = db.statementLog ++ 1 :: L ∧ (∀ x ∈ L, 0 < x ∧ x ≤ 100) ∧ L.sum = files.length) ∧
    (∃ l, (saveToDatabaseFn cfg fl now files ⟨db, 0⟩ w).1.2 = { w with logs := w.logs ++ l }) := by
  cases hs : fl.stmt 0 with
  | some e =>
    have hr : saveToDatabaseFn cfg fl now files ⟨db, 0⟩ w
        = ((⟨{ db with statementLog := db.statementLog ++ [1] }, 1⟩, w),
            some (.wrap "file_collections 삽입 실패" e)) := by
      simp [saveToDatabaseFn, Tx.Create, hs]
    rw [hr]
    refine ⟨⟨fun h => (by cases h), fun h => (by cases h.1)⟩, fun h => (by cases h), [], by simp⟩
  | none =>
    by_cases hn : files.length > 0
    · obtain ⟨hiff, hok⟩ := createInBatchesLoop_spec fl
        (childRows db.nextCollectionID files) 100 (by decide)
        (childRows db.nextCollectionID files).length 0
        ⟨{ db with
            statementLog := db.statementLog ++ [1]
            file_collections := db.file_collections ++ [snapshotRow cfg now files db]
            nextCollectionID := db.nextCollectionID + 1 }, 1⟩ (by omega)
      have hlen : (childRows db.nextCollectionID files).length = files.length := by
        simp [childRows]
      simp only [hlen, Nat.sub_zero, List.drop_zero] at hiff hok
      cases hl : createInBatchesLoop fl (childRows db.nextCollectionID files) 100 files.length 0
          ⟨{ db with
              statementLog := db.statementLog ++ [1]
              file_collections := db.file_collections ++ [snapshotRow cfg now files db]
              nextCollectionID := db.nextCollectionID + 1 }, 1⟩ with
      | mk tx2 res =>
        rw [hl] at hiff hok
        cases res with
        | some e =>
          have hr : saveToDatabaseFn cfg fl now files ⟨db, 0⟩ w
              = ((tx2, w), some (.wrap "collected_files 배치 삽입 실패" e)) := by
            simp only [saveToDatabaseFn, Tx.Create, hs, hn, if_true, Tx.CreateInBatches,
              List.length_map]
            have := hl
            simp only [childRows, snapshotRow] at this
            rw [this]
          rw [hr]
          refine ⟨⟨fun h => (by cases h), fun h => ?_⟩, fun h => (by cases h), [], by simp⟩
          have := hiff.2 (fun j hj => by
            have := h.2 j hj
            rw [show 1 + j = j + 1 by omega]
            exact this)
          cases this
        | none =>
          have hr : saveToDatabaseFn cfg fl now files ⟨db, 0⟩ w
              = ((tx2, w.log .Debug "데이터베이스 저장 성공"), none) := by
            simp only [saveToDatabaseFn, Tx.Create, hs, hn, if_true, Tx.CreateInBatches,
              List.length_map]
            have := hl
            simp only [childRows, snapshotRow] at this
            rw [this]
          rw [hr]
          obtain ⟨hcf, hfc, L, hL, hLb, hLs⟩ := hok rfl
          refine ⟨⟨fun _ => ⟨rfl, fun j hj => ?_⟩, fun _ => rfl⟩,
            fun _ => ⟨hfc, hcf, L, ?_, hLb, hLs⟩, [_], rfl⟩
          · have := hiff.1 rfl j hj
            rw [show j + 1 = 1 + j by omega]
            exact this
          · rw [hL]; simp
    · have hr : saveToDatabaseFn cfg fl now files ⟨db, 0⟩ w
          = ((⟨{ db with
                  statementLog := db.statementLog ++ [1]
                  file_collections := db.file_collections ++ [snapshotRow cfg now files db]
                  nextCollectionID := db.nextCollectionID + 1 }, 1⟩,
              w.log .Debug "데이터베이스 저장 성공"), none) := by
        simp [saveToDatabaseFn, Tx.Create, hs, hn, snapshotRow]
      have h0 : files = [] := List.length_eq_zero.mp (by omega)
      rw [hr]
      refine ⟨⟨fun _ => ⟨rfl, fun j hj => (by omega)⟩, fun _ => rfl⟩,
        fun _ => ⟨rfl, ?_, [], by simp, by simp, by simp [h0]⟩, [_], rfl⟩
      simp [h0, childRows, assignIDs]

/-- Full behaviour of `saveToDatabase`: when it succeeds, what it commits, and
what it leaves alone. -/
theorem saveToDatabase_spec (cfg : Config) (fl : StoreFaults) (now : Int)
    (files : List String) (w : World) :
    ((saveToDatabase cfg fl now files w).2 = none ↔ fl.noneFor files.length) ∧
    ((saveToDatabase cfg fl now files w).2 = none →
      (saveToDatabase cfg fl now files w).1.db.file_collections
          = w.db.file_collections ++ [snapshotRow cfg now files w.db] ∧
      (saveToDatabase cfg fl now files w).1.db.collected_files
          = w.db.collected_files
              ++ assignIDs w.db.nextFileID (childRows w.db.nextCollectionID files) ∧
      ∃ L, (saveToDatabase cfg fl now files w).1.db.statementLog
          = w.db.statementLog ++ 1 :: L ∧ (∀ x ∈ L, 0 < x ∧ x ≤ 100) ∧ L.sum = files.length) ∧
    ((saveToDatabase cfg fl now files w).2 ≠ none →
      (saveToDatabase cfg fl now files w).1.db.file_collections = w.db.file_collections ∧
      (saveToDatabase cfg fl now files w).1.db.collected_files = w.db.collected_files) ∧
    (∃ db l, (saveToDatabase cfg fl now files w).1
      = { w with db := db, logs := w.logs ++ l, saveCalls := w.saveCalls + 1 }) := by
  obtain ⟨hiff, hok, l, hl⟩ := saveToDatabaseFn_spec cfg fl now files w.db
    { w with saveCalls := w.saveCalls + 1 }
  unfold StoreFaults.noneFor
  cases hb : fl.begin with
  | some e =>
    have hr : saveToDatabase cfg fl now files w
        = ({ w with saveCalls := w.saveCalls + 1 }, some e) := by
      simp [saveToDatabase, Transaction, hb]
    rw [hr]
    refine ⟨⟨fun h => (by cases h), fun h => (by cases h.1)⟩, fun h => (by cases h),
      fun _ => ⟨rfl, rfl⟩, w.db, [], by simp⟩
  | none =>
    cases hf : saveToDatabaseFn cfg fl now files ⟨w.db, 0⟩
        { w with saveCalls := w.saveCalls + 1 } with
    | mk tw res =>
      obtain ⟨tx, w1⟩ := tw
      rw [hf] at hiff hok hl
      simp only at hl
      cases res with
      | some e =>
        have hr : saveToDatabase cfg fl now files w
            = ({ w1 with db := tx.rollback w.db }, some e) := by
          simp [saveToDatabase, Transaction, hb, hf]
        rw [hr]
        refine ⟨⟨fun h => (by cases h), fun h => ?_⟩, fun h => (by cases h),
          fun _ => ⟨rfl, rfl⟩, tx.rollback w.db, l, by rw [hl]⟩
        have := hiff.2 ⟨h.2.1, h.2.2.1⟩
        cases this
      | none =>
        obtain ⟨hfc, hcf, L, hL, hLb, hLs⟩ := hok rfl
        simp only at hfc hcf hL
        cases hc : fl.commit with
        | some e =>
          have hr : saveToDatabase cfg fl now files w
              = ({ w1 with db := tx.rollback w.db }, some e) := by
            simp [saveToDatabase, Transaction, hb, hf, hc]
          rw [hr]
          refine ⟨⟨fun h => (by cases h), fun h => (by cases h.2.2.2)⟩, fun h => (by cases h),
            fun _ => ⟨rfl, rfl⟩, tx.rollback w.db, l, by rw [hl]⟩
        | none =>
          have hr : saveToDatabase cfg fl now files w = ({ w1 with db := tx.db }, none) := by
            simp [saveToDatabase, Transaction, hb, hf, hc]
          rw [hr]
          refine ⟨⟨fun _ => ⟨rfl, (hiff.1 rfl).1, (hiff.1 rfl).2, rfl⟩, fun _ => rfl⟩,
            fun _ => ⟨hfc, hcf, L, hL, hLb, hLs⟩, fun h => absurd rfl h, tx.db, l, by rw [hl]⟩

/-- The two ways a `saveToDatabase` call can go. -/
theorem saveToDatabase_cases (cfg : Config) (fl : StoreFaults) (now : Int)
    (files : List String) (w : World) :
    (fl.noneFor files.length ∧ ∃ db l, saveToDatabase cfg fl now files w
        = ({ w with db := db, logs := w.logs ++ l, saveCalls := w.saveCalls + 1 }, none) ∧
        Committed cfg now files w.db db) ∨
    (¬ fl.noneFor files.length ∧ ∃ db l e, saveToDatabase cfg fl now files w
        = ({ w with db := db, logs := w.logs ++ l, saveCalls := w.saveCalls + 1 }, some e) ∧
        RowsUnchanged w.db db) := by
  obtain ⟨hiff, hok, herr, db, l, hw⟩ := saveToDatabase_spec cfg fl now files w
  cases hres : (saveToDatabase cfg fl now files w).2 with
  | none =>
    left
    refine ⟨hiff.1 hres, db, l, Prod.ext hw hres, ?_⟩
    have := hok hres
    rw [hw] at this
    exact this
  | some e =>
    right
    refine ⟨fun hn => ?_, db, l, e, Prod.ext hw hres, ?_⟩
    · rw [hiff.2 hn] at hres; cases hres
    · have := herr (by rw [hres]; simp)
      rw [hw] at this
      exact this

/-! ## Lemmas on one cycle -/

/-- A scan returns its start world with some log lines added, none on failure. -/
theorem scanDirectory_eq (fs : FileSystem) (p : String) (w : World) :
    ∃ l, scanDirectory fs p w = ({ w with logs := w.logs ++ l }, (scanDirectory fs p w).2) ∧
      (∀ err, (scanDirectory fs p w).2 = .error err → l = []) := by
  unfold scanDirectory
  cases fs.Stat p with
  | notExist e =>
    exact ⟨[⟨.Warn, "디렉토리가 존재하지 않습니다"⟩], rfl, fun err h => by simp at h⟩
  | failed e => exact ⟨[], by simp, fun _ _ => rfl⟩
  | info isDir =>
    cases isDir with
    | false => exact ⟨[], by simp, fun _ _ => rfl⟩
    | true => cases fs.ReadDir p <;> exact ⟨[], by simp, fun _ _ => rfl⟩

theorem scanDirectory_error_eq (fs : FileSystem) (p : String) (w w1 : World) (err : GoError)
    (h : (scanDirectory fs p w).2 = .error err) : scanDirectory fs p w1 = (w1, .error err) := by
  have h2 : (scanDirectory fs p w1).2 = .error err := by
    rw [scanDirectory_snd fs p w1 w, h]
  exact Prod.ext (scanDirectory_error_fst fs p w1 err h2) h2

theorem scanDirectory_ok_eq (fs : FileSystem) (p : String) (w w1 : World) (files : List String)
    (h : (scanDirectory fs p w).2 = .ok files) :
    ∃ l, scanDirectory fs p w1 = ({ w1 with logs := w1.logs ++ l }, .ok files) := by
  have h2 : (scanDirectory fs p w1).2 = .ok files := by
    rw [scanDirectory_snd fs p w1 w, h]
  obtain ⟨l, hl, _⟩ := scanDirectory_eq fs p w1
  exact ⟨l, by rw [hl, h2]⟩

/-- The cycle without a tracer when the scan fails. -/
theorem collectAndStoreWithoutTrace_scan_error (cfg : Config) (env : CycleEnv) (w : World)
    (err : GoError) (h : (scanDirectory env.fs cfg.Collector.MountPath w).2 = .error err) :
    collectAndStoreWithoutTrace cfg env w
      = (addCollectionError cfg "scan_error" w, some (.wrap "디렉토리 스캔 실패" err)) := by
  have hs := scanDirectory_error_eq env.fs cfg.Collector.MountPath w w err h
  simp only [collectAndStoreWithoutTrace, hs]

/-- The cycle with a tracer when the scan fails. -/
theorem collectAndStoreTraced_scan_error (cfg : Config) (env : CycleEnv) (w : World)
    (err : GoError) (h : (scanDirectory env.fs cfg.Collector.MountPath w).2 = .error err) :
    collectAndStoreTraced cfg env w
      = (addCollectionError cfg "scan_error"
          { w with spans := w.spans ++ [.start "file_collection", .start "scan_directory",
              .finish "scan_directory", .recordError "file_collection" err,
              .finish "file_collection"] },
          some (.wrap "디렉토리 스캔 실패" err)) := by
  have hs := scanDirectory_error_eq env.fs cfg.Collector.MountPath w
    ((w.span (.start "file_collection")).span (.start "scan_directory")) err h
  simp only [collectAndStoreTraced, hs]
  simp [addCollectionError, World.span]

/-- A cycle whose scan fails, with or without a tracer. -/
theorem collectAndStore_scan_error (cfg : Config) (env : CycleEnv) (w : World) (err : GoError)
    (h : (scanDirectory env.fs cfg.Collector.MountPath w).2 = .error err) :
    ∃ sp, collectAndStore cfg env w
      = (addCollectionError cfg "scan_error" (w.touched w.db [] sp 0),
          some (.wrap "디렉토리 스캔 실패" err)) := by
  obtain ⟨db, inst, spans, logs, tracerSet, meterSet, saveCalls, cycleCalls⟩ := w
  cases tracerSet with
  | false =>
    refine ⟨[], ?_⟩
    have h2 := scanDirectory_error_eq env.fs cfg.Collector.MountPath _
      ⟨db, inst, spans, logs, false, meterSet, saveCalls, cycleCalls + 1⟩ err h
    have h3 := collectAndStoreWithoutTrace_scan_error cfg env
      ⟨db, inst, spans, logs, false, meterSet, saveCalls, cycleCalls + 1⟩ err (by rw [h2])
    simp only [collectAndStore, Bool.not_false, if_true, h3]
    simp [World.touched, addCollectionError]
  | true =>
    refine ⟨[.start "file_collection", .start "scan_directory", .finish "scan_directory",
      .recordError "file_collection" err, .finish "file_collection"], ?_⟩
    have h2 := scanDirectory_error_eq env.fs cfg.Collector.MountPath _
      ⟨db, inst, spans, logs, true, meterSet, saveCalls, cycleCalls + 1⟩ err h
    have h3 := collectAndStoreTraced_scan_error cfg env
      ⟨db, inst, spans, logs, true, meterSet, saveCalls, cycleCalls + 1⟩ err (by rw [h2])
    simp only [collectAndStore, Bool.not_true, h3]
    simp [World.touched, addCollectionError]

/-- The cycle without a tracer when the scan succeeds. -/
theorem collectAndStoreWithoutTrace_scan_ok (cfg : Config) (env : CycleEnv) (w : World)
    (files : List String) (h : (scanDirectory env.fs cfg.Collector.MountPath w).2 = .ok files) :
    (env.faults.noneFor files.length ∧ ∃ db l, collectAndStoreWithoutTrace cfg env w
        = (recordSuccess cfg files.length
            (sinceMilliseconds env.clock.startTime env.clock.cycleEnd)
            (sinceMilliseconds env.clock.dbStartTime env.clock.dbEnd)
            { w with db := db, logs := w.logs ++ l, saveCalls := w.saveCalls + 1 }, none) ∧
        Committed cfg env.clock.saveNow files w.db db) ∨
    (¬ env.faults.noneFor files.length ∧ ∃ db l e, collectAndStoreWithoutTrace cfg env w
        = (addCollectionError cfg "db_error"
            { w with db := db, logs := w.logs ++ l, saveCalls := w.saveCalls + 1 },
            some (.wrap "데이터베이스 저장 실패" e)) ∧
        RowsUnchanged w.db db) := by
  obtain ⟨l1, hs⟩ := scanDirectory_ok_eq env.fs cfg.Collector.MountPath w w files h
  rcases saveToDatabase_cases cfg env.faults env.clock.saveNow files
      ({ w with logs := w.logs ++ l1 }.log .Info "파일 스캔 완료") with
    ⟨hn, db, l2, hsv, hc⟩ | ⟨hn, db, l2, e, hsv, hc⟩
  · left
    refine ⟨hn, db, l1 ++ [⟨.Info, "파일 스캔 완료"⟩] ++ l2 ++ [⟨.Info, "파일 수집 완료"⟩], ?_, hc⟩
    simp only [collectAndStoreWithoutTrace, hs, hsv]
    simp [recordSuccess, World.log]
  · right
    refine ⟨hn, db, l1 ++ [⟨.Info, "파일 스캔 완료"⟩] ++ l2, e, ?_, hc⟩
    simp only [collectAndStoreWithoutTrace, hs, hsv]
    simp [addCollectionError, World.log]

/-- The cycle with a tracer when the scan succeeds. -/
theorem collectAndStoreTraced_scan_ok (cfg : Config) (env : CycleEnv) (w : World)
    (files : List String) (h : (scanDirectory env.fs cfg.Collector.MountPath w).2 = .ok files) :
    (env.faults.noneFor files.length ∧ ∃ db l sp, collectAndStoreTraced cfg env w
        = (recordSuccess cfg files.length
            (sinceMilliseconds env.clock.startTime env.clock.cycleEnd)
            (sinceMilliseconds env.clock.dbStartTime env.clock.dbEnd)
            { w with db := db, logs := w.logs ++ l, spans := w.spans ++ sp,
                     saveCalls := w.saveCalls + 1 }, none) ∧
        Committed cfg env.clock.saveNow files w.db db) ∨
    (¬ env.faults.noneFor files.length ∧ ∃ db l sp e, collectAndStoreTraced cfg env w
        = (addCollectionError cfg "db_error"
            { w with db := db, logs := w.logs ++ l, spans := w.spans ++ sp,
                     saveCalls := w.saveCalls + 1 },
            some (.wrap "데이터베이스 저장 실패" e)) ∧
        RowsUnchanged w.db db) := by
  obtain ⟨l1, hs⟩ := scanDirectory_ok_eq env.fs cfg.Collector.MountPath w
    ((w.span (.start "file_collection")).span (.start "scan_directory")) files h
  rcases saveToDatabase_cases cfg env.faults env.clock.saveNow files
      ((((({ ((w.span (.start "file_collection")).span (.start "scan_directory")) with
          logs := ((w.span (.start "file_collection")).span (.start "scan_directory")).logs
            ++ l1 }.span (.finish "scan_directory")).span
          (.setAttributes "scan_directory" [("file_count", (files.length : Int))])).log .Info
          "파일 스캔 완료").span (.start "save_to_database"))) with
    ⟨hn, db, l2, hsv, hc⟩ | ⟨hn, db, l2, e, hsv, hc⟩
  · left
    refine ⟨hn, db, l1 ++ [⟨.Info, "파일 스캔 완료"⟩] ++ l2 ++ [⟨.Info, "파일 수집 완료"⟩],
      [.start "file_collection", .start "scan_directory", .finish "scan_directory",
       .setAttributes "scan_directory" [("file_count", (files.length : Int))],
       .start "save_to_database",
       .setAttributes "save_to_database" [("file_count", (files.length : Int)),
         ("db_duration_ms", sinceMilliseconds env.clock.dbStartTime env.clock.dbEnd)],
       .finish "save_to_database",
       .setAttributes "file_collection" [("file_count", (files.length : Int)),
         ("duration_ms", sinceMilliseconds env.clock.startTime env.clock.cycleEnd)],
       .finish "file_collection"], ?_, ?_⟩
    · simp only [collectAndStoreTraced, hs, hsv]
      simp [recordSuccess, World.log, World.span]
    · simpa [World.log, World.span] using hc
  · right
    refine ⟨hn, db, l1 ++ [⟨.Info, "파일 스캔 완료"⟩] ++ l2,
      [.start "file_collection", .start "scan_directory", .finish "scan_directory",
       .setAttributes "scan_directory" [("file_count", (files.length : Int))],
       .start "save_to_database", .recordError "save_to_database" e,
       .finish "save_to_database", .recordError "file_collection" e,
       .finish "file_collection"], e, ?_, ?_⟩
    · simp only [collectAndStoreTraced, hs, hsv]
      simp [addCollectionError, World.log, World.span]
    · simpa [World.log, World.span] using hc

/-- A cycle whose scan succeeds, with or without a tracer: either the store
accepts everything and the cycle records success, or it does not and the cycle
records a `db_error`. -/
theorem collectAndStore_scan_ok (cfg : Config) (env : CycleEnv) (w : World)
    (files : List String) (h : (scanDirectory env.fs cfg.Collector.MountPath w).2 = .ok files) :
    (env.faults.noneFor files.length ∧ ∃ db l sp, collectAndStore cfg env w
        = (recordSuccess cfg files.length
            (sinceMilliseconds env.clock.startTime env.clock.cycleEnd)
            (sinceMilliseconds env.clock.dbStartTime env.clock.dbEnd)
            (w.touched db l sp 1), none) ∧
        Committed cfg env.clock.saveNow files w.db db) ∨
    (¬ env.faults.noneFor files.length ∧ ∃ db l sp e, collectAndStore cfg env w
        = (addCollectionError cfg "db_error" (w.touched db l sp 1),
            some (.wrap "데이터베이스 저장 실패" e)) ∧
        RowsUnchanged w.db db) := by
  obtain ⟨db0, inst, spans, logs, tracerSet, meterSet, saveCalls, cycleCalls⟩ := w
  cases tracerSet with
  | false =>
    have h2 : (scanDirectory env.fs cfg.Collector.MountPath
        ⟨db0, inst, spans, logs, false, meterSet, saveCalls, cycleCalls + 1⟩).2 = .ok files := by
      rw [scanDirectory_snd _ _ _ ⟨db0, inst, spans, logs, false, meterSet, saveCalls, cycleCalls⟩, h]
    rcases collectAndStoreWithoutTrace_scan_ok cfg env _ files h2 with
      ⟨hn, db, l, hr, hc⟩ | ⟨hn, db, l, e, hr, hc⟩
    · left
      refine ⟨hn, db, l, [], ?_, hc⟩
      simp only [collectAndStore, Bool.not_false, if_true, hr]
      simp [World.touched]
    · right
      refine ⟨hn, db, l, [], e, ?_, hc⟩
      simp only [collectAndStore, Bool.not_false, if_true, hr]
      simp [World.touched]
  | true =>
    have h2 : (scanDirectory env.fs cfg.Collector.MountPath
        ⟨db0, inst, spans, logs, true, meterSet, saveCalls, cycleCalls + 1⟩).2 = .ok files := by
      rw [scanDirectory_snd _ _ _ ⟨db0, inst, spans, logs, true, meterSet, saveCalls, cycleCalls⟩, h]
    rcases collectAndStoreTraced_scan_ok cfg env _ files h2 with
      ⟨hn, db, l, sp, hr, hc⟩ | ⟨hn, db, l, sp, e, hr, hc⟩
    · left
      refine ⟨hn, db, l, sp, ?_, hc⟩
      simp only [collectAndStore, Bool.not_true, hr]
      simp [World.touched]
    · right
      refine ⟨hn, db, l, sp, e, ?_, hc⟩
      simp only [collectAndStore, Bool.not_true, hr]
      simp [World.touched]

theorem noFaults_noneFor (n : Nat) : noFaults.noneFor n :=
  ⟨rfl, rfl, fun _ _ => rfl, rfl⟩

/-! ## Persistence: atomicity and count invariant -/

/-- C1: `saveToDatabase` is atomic. It returns nil exactly when the store
accepts BEGIN, the snapshot insert, every child batch and COMMIT. Whatever the
file names and wherever the store fails, the call ends in one of two states:
it returned nil and the tables hold their old rows plus one new snapshot row and
all of its child rows; or it returned an error and both tables hold exactly
their old rows. -/
theorem saveToDatabase_atomic (cfg : Config) (fl : StoreFaults) (now : Int)
    (files : List String) (w : World) :
    ((saveToDatabase cfg fl now files w).2 = none ↔ fl.noneFor files.length) ∧
    (((saveToDatabase cfg fl now files w).2 = none ∧
        (saveToDatabase cfg fl now files w).1.db.file_collections
          = w.db.file_collections ++ [snapshotRow cfg now files w.db] ∧
        (saveToDatabase cfg fl now files w).1.db.collected_files
          = w.db.collected_files
              ++ assignIDs w.db.nextFileID (childRows w.db.nextCollectionID files)) ∨
      ((∃ e, (saveToDatabase cfg fl now files w).2 = some e) ∧
        (saveToDatabase cfg fl now files w).1.db.file_collections = w.db.file_collections ∧
        (saveToDatabase cfg fl now files w).1.db.collected_files = w.db.collected_files)) := by
  obtain ⟨hiff, hok, herr, _⟩ := saveToDatabase_spec cfg fl now files w
  refine ⟨hiff, ?_⟩
  cases hres : (saveToDatabase cfg fl now files w).2 with
  | none =>
    obtain ⟨h1, h2, _⟩ := hok hres
    exact Or.inl ⟨rfl, h1, h2⟩
  | some e =>
    obtain ⟨h1, h2⟩ := herr (by rw [hres]; simp)
    exact Or.inr ⟨⟨e, rfl⟩, h1, h2⟩

/-- C2: count invariant of `saveToDatabase`. For every list of `n` file names,
when the store accepts every statement the call returns nil and commits one
snapshot row with `FileCount = n` and the store-assigned ID, together with
exactly `n` child rows, the i-th carrying that ID as `CollectionID` and the i-th
input name as `FileName`; the rows are written by one single-row statement
followed by statements of between 1 and 100 rows whose sizes add up to `n`. -/
theorem saveToDatabase_count (cfg : Config) (fl : StoreFaults) (now : Int)
    (files : List String) (w : World) (hfl : fl.noneFor files.length) :
    (saveToDatabase cfg fl now files w).2 = none ∧
    ∃ (new : List CollectedFile) (L : List Nat),
      (saveToDatabase cfg fl now files w).1.db.file_collections
        = w.db.file_collections ++
            [{ ID := w.db.nextCollectionID, NodeName := cfg.NodeName,
               MountPath := cfg.Collector.MountPath, CollectedAt := datetime3 now,
               FileCount := files.length }] ∧
      (saveToDatabase cfg fl now files w).1.db.collected_files = w.db.collected_files ++ new ∧
      new.length = files.length ∧
      (∀ (i : Nat) (name : String), files[i]? = some name →
        new[i]? = some (CollectedFile.mk (w.db.nextFileID + i) w.db.nextCollectionID name)) ∧
      (saveToDatabase cfg fl now files w).1.db.statementLog = w.db.statementLog ++ 1 :: L ∧
      (∀ x ∈ L, 0 < x ∧ x ≤ 100) ∧ L.sum = files.length := by
  obtain ⟨hiff, hok, _, _⟩ := saveToDatabase_spec cfg fl now files w
  have hres := hiff.2 hfl
  obtain ⟨h1, h2, L, hL, hLb, hLs⟩ := hok hres
  refine ⟨hres, assignIDs w.db.nextFileID (childRows w.db.nextCollectionID files), L,
    h1, h2, ?_, ?_, hL, hLb, hLs⟩
  · simp [assignIDs_length, childRows]
  · intro i name hi
    rw [assignIDs_getElem?]
    simp [childRows, hi]

/-- C2 at three file names on an empty store. -/
theorem saveToDatabase_count_witness :
    noFaults.noneFor ["a.txt", "b.log", "c.dat"].length ∧
    ((saveToDatabase exampleConfig noFaults 5000 ["a.txt", "b.log", "c.dat"]
        (World.initial emptyDB)).2 = none ∧
    ∃ (new : List CollectedFile) (L : List Nat),
      (saveToDatabase exampleConfig noFaults 5000 ["a.txt", "b.log", "c.dat"]
          (World.initial emptyDB)).1.db.file_collections
        = (World.initial emptyDB).db.file_collections ++
            [{ ID := (World.initial emptyDB).db.nextCollectionID,
               NodeName := exampleConfig.NodeName,
               MountPath := exampleConfig.Collector.MountPath,
               CollectedAt := datetime3 5000,
               FileCount := ["a.txt", "b.log", "c.dat"].length }] ∧
      (saveToDatabase exampleConfig noFaults 5000 ["a.txt", "b.log", "c.dat"]
          (World.initial emptyDB)).1.db.collected_files
        = (World.initial emptyDB).db.collected_files ++ new ∧
      new.length = ["a.txt", "b.log", "c.dat"].length ∧
      (∀ (i : Nat) (name : String), ["a.txt", "b.log", "c.dat"][i]? = some name →
        new[i]? = some (CollectedFile.mk ((World.initial emptyDB).db.nextFileID + i)
          (World.initial emptyDB).db.nextCollectionID name)) ∧
      (saveToDatabase exampleConfig noFaults 5000 ["a.txt", "b.log", "c.dat"]
          (World.initial emptyDB)).1.db.statementLog
        = (World.initial emptyDB).db.statementLog ++ 1 :: L ∧
      (∀ x ∈ L, 0 < x ∧ x ≤ 100) ∧ L.sum = ["a.txt", "b.log", "c.dat"].length) :=
  ⟨noFaults_noneFor _,
   saveToDatabase_count exampleConfig noFaults 5000 ["a.txt", "b.log", "c.dat"]
     (World.initial emptyDB) (noFaults_noneFor _)⟩

/-! ## Scanner -/

/-- C3: scanner result. When the path exists, is a directory and its listing
succeeds with `entries`, `scanDirectory` returns no error and the names of the
entries that are not directories, in listing order, and changes nothing in the
world. Every non-directory entry's name is in the result, and (names in one
directory being distinct) no directory entry's name is. -/
theorem scanDirectory_result (fs : FileSystem) (dirPath : String) (w : World)
    (entries : List DirEntry) (hstat : fs.Stat dirPath = .info true)
    (hread : fs.ReadDir dirPath = .ok entries) :
    scanDirectory fs dirPath w
      = (w, .ok ((entries.filter (fun e => !e.IsDir)).map DirEntry.Name)) ∧
    (∀ e ∈ entries, e.IsDir = false →
      e.Name ∈ (entries.filter (fun e => !e.IsDir)).map DirEntry.Name) ∧
    ((entries.map DirEntry.Name).Nodup → ∀ e ∈ entries, e.IsDir = true →
      e.Name ∉ (entries.filter (fun e => !e.IsDir)).map DirEntry.Name) := by
  refine ⟨?_, ?_, ?_⟩
  · simp [scanDirectory, hstat, hread, scanLoop_eq]
  · intro e he hd
    exact List.mem_map.mpr ⟨e, List.mem_filter.mpr ⟨he, by simp [hd]⟩, rfl⟩
  · intro hnd e he hd hmem
    obtain ⟨e1, he1, hname⟩ := List.mem_map.mp hmem
    obtain ⟨he1m, he1d⟩ := List.mem_filter.mp he1
    have := List.inj_on_of_nodup_map hnd he1m he hname
    subst this
    simp [hd] at he1d

/-- C3 on the directory with `a.txt`, `b.log` and subdirectory `sub`: the scan
returns `a.txt`, `b.log`. -/
theorem scanDirectory_result_witness :
    exampleFS.Stat "/mnt/harman" = .info true ∧
    exampleFS.ReadDir "/mnt/harman" = .ok [⟨"a.txt", false⟩, ⟨"b.log", false⟩, ⟨"sub", true⟩] ∧
    scanDirectory exampleFS "/mnt/harman" (World.initial emptyDB)
      = (World.initial emptyDB, .ok ["a.txt", "b.log"]) :=
  ⟨rfl, rfl,
   (scanDirectory_result exampleFS "/mnt/harman" (World.initial emptyDB)
      [⟨"a.txt", false⟩, ⟨"b.log", false⟩, ⟨"sub", true⟩] rfl rfl).1⟩

/-! ## Cycles -/

/-- C4: missing-mount tolerance. When `os.Stat` reports that a path does not
exist, `scanDirectory` returns the empty list and no error. A cycle on such a
mount path, with or without a tracer, over a store that accepts the three
statements of an empty snapshot, returns nil, counts no error, commits exactly
one snapshot row with `FileCount = 0` and no child row. -/
theorem missing_mount_cycle (cfg : Config) (env : CycleEnv) (w : World) (e : GoError)
    (hstat : env.fs.Stat cfg.Collector.MountPath = .notExist e)
    (hstore : env.faults.noneFor 0) :
    (∀ w1, (scanDirectory env.fs cfg.Collector.MountPath w1).2 = .ok []) ∧
    (collectAndStore cfg env w).2 = none ∧
    (collectAndStore cfg env w).1.inst.collectionErrors = w.inst.collectionErrors ∧
    (collectAndStore cfg env w).1.db.file_collections
      = w.db.file_collections ++
          [{ ID := w.db.nextCollectionID, NodeName := cfg.NodeName,
             MountPath := cfg.Collector.MountPath,
             CollectedAt := datetime3 env.clock.saveNow,
             FileCount := 0 }] ∧
    (collectAndStore cfg env w).1.db.collected_files = w.db.collected_files ∧
    (collectAndStore cfg env w).1.saveCalls = w.saveCalls + 1 := by
  have hscan : ∀ w1, (scanDirectory env.fs cfg.Collector.MountPath w1).2 = .ok [] := by
    intro w1; simp [scanDirectory, hstat]
  refine ⟨hscan, ?_⟩
  rcases collectAndStore_scan_ok cfg env w [] (hscan w) with
    ⟨_, db, l, sp, hr, hfc, hcf, _⟩ | ⟨hn, _⟩
  · rw [hr]
    refine ⟨rfl, rfl, ?_, ?_, rfl⟩
    · simpa [recordSuccess, World.touched, snapshotRow] using hfc
    · simpa [recordSuccess, World.touched, childRows, assignIDs] using hcf
  · exact absurd hstore hn

/-- C4 on a missing mount path and an empty store. -/
theorem missing_mount_cycle_witness :
    missingFS.Stat exampleConfig.Collector.MountPath
      = .notExist (.leaf "no such file or directory") ∧
    noFaults.noneFor 0 ∧
    (collectAndStore exampleConfig ⟨missingFS, exampleClock, noFaults⟩
        (World.initial emptyDB)).2 = none ∧
    (collectAndStore exampleConfig ⟨missingFS, exampleClock, noFaults⟩
        (World.initial emptyDB)).1.inst.collectionErrors = [] ∧
    (collectAndStore exampleConfig ⟨missingFS, exampleClock, noFaults⟩
        (World.initial emptyDB)).1.db.file_collections
      = [{ ID := 1, NodeName := "node-1", MountPath := "/mnt/harman",
           CollectedAt := 3000000, FileCount := 0 }] ∧
    (collectAndStore exampleConfig ⟨missingFS, exampleClock, noFaults⟩
        (World.initial emptyDB)).1.db.collected_files = [] :=
  have h := missing_mount_cycle exampleConfig ⟨missingFS, exampleClock, noFaults⟩
    (World.initial emptyDB) (.leaf "no such file or directory") rfl (noFaults_noneFor 0)
  ⟨rfl, noFaults_noneFor 0, h.2.1, h.2.2.1, h.2.2.2.1, h.2.2.2.2.1⟩

/-- C5: non-directory rejection and scan-failure abort. A path that exists
but is not a directory makes `scanDirectory` fail with the not-a-directory
error. Whenever the scan of the mount path fails with `err` (this case, a
failed stat or a failed listing), the cycle, with or without a tracer, returns
an error wrapping `err`, never calls `saveToDatabase`, and leaves the store as
it was. -/
theorem scan_failure_aborts_cycle (cfg : Config) (env : CycleEnv) (w : World) (err : GoError)
    (hscan : (scanDirectory env.fs cfg.Collector.MountPath w).2 = .error err) :
    (∀ (fs : FileSystem) (p : String) (w1 : World), fs.Stat p = .info false →
      scanDirectory fs p w1
        = (w1, .error (.leaf ("지정된 경로가 디렉토리가 아닙니다: " ++ p)))) ∧
    ((collectAndStore cfg env w).2 = some (.wrap "디렉토리 스캔 실패" err) ∧
      (collectAndStore cfg env w).1.db = w.db ∧
      (collectAndStore cfg env w).1.saveCalls = w.saveCalls) ∧
    ((collectAndStoreWithoutTrace cfg env w).2 = some (.wrap "디렉토리 스캔 실패" err) ∧
      (collectAndStoreWithoutTrace cfg env w).1.db = w.db ∧
      (collectAndStoreWithoutTrace cfg env w).1.saveCalls = w.saveCalls) ∧
    ((collectAndStoreTraced cfg env w).2 = some (.wrap "디렉토리 스캔 실패" err) ∧
      (collectAndStoreTraced cfg env w).1.db = w.db ∧
      (collectAndStoreTraced cfg env w).1.saveCalls = w.saveCalls) := by
  refine ⟨?_, ?_, ?_, ?_⟩
  · intro fs p w1 h
    simp [scanDirectory, h]
  · obtain ⟨sp, hr⟩ := collectAndStore_scan_error cfg env w err hscan
    rw [hr]
    exact ⟨rfl, rfl, rfl⟩
  · rw [collectAndStoreWithoutTrace_scan_error cfg env w err hscan]
    exact ⟨rfl, rfl, rfl⟩
  · rw [collectAndStoreTraced_scan_error cfg env w err hscan]
    exact ⟨rfl, rfl, rfl⟩

/-- C5 on a mount path that is a regular file, without and with a tracer. -/
theorem scan_failure_aborts_cycle_witness :
    (scanDirectory regularFileFS exampleConfig.Collector.MountPath (World.initial emptyDB)).2
      = .error (.leaf "지정된 경로가 디렉토리가 아닙니다: /mnt/harman") ∧
    (collectAndStore exampleConfig ⟨regularFileFS, exampleClock, noFaults⟩
        (World.initial emptyDB)).2
      = some (.wrap "디렉토리 스캔 실패"
          (.leaf "지정된 경로가 디렉토리가 아닙니다: /mnt/harman")) ∧
    (collectAndStore exampleConfig ⟨regularFileFS, exampleClock, noFaults⟩
        (World.initial emptyDB)).1.db = emptyDB ∧
    (collectAndStore exampleConfig ⟨regularFileFS, exampleClock, noFaults⟩
        (World.initial emptyDB)).1.saveCalls = 0 :=
  ⟨by rfl,
   (scan_failure_aborts_cycle exampleConfig ⟨regularFileFS, exampleClock, noFaults⟩
      (World.initial emptyDB) (.leaf "지정된 경로가 디렉토리가 아닙니다: /mnt/harman")
      (by rfl)).2.1⟩

/-- The three outcomes of a cycle and what each does to the instruments. -/
theorem collectAndStore_inst (cfg : Config) (env : CycleEnv) (w : World) :
    (∃ err, (scanDirectory env.fs cfg.Collector.MountPath w).2 = .error err ∧
      (collectAndStore cfg env w).2 = some (.wrap "디렉토리 스캔 실패" err) ∧
      (collectAndStore cfg env w).1.inst = w.inst.withError cfg "scan_error") ∨
    (∃ files, (scanDirectory env.fs cfg.Collector.MountPath w).2 = .ok files ∧
      ¬ env.faults.noneFor files.length ∧
      (∃ e, (collectAndStore cfg env w).2 = some (.wrap "데이터베이스 저장 실패" e)) ∧
      (collectAndStore cfg env w).1.inst = w.inst.withError cfg "db_error") ∨
    (∃ files, (scanDirectory env.fs cfg.Collector.MountPath w).2 = .ok files ∧
      env.faults.noneFor files.length ∧
      (collectAndStore cfg env w).2 = none ∧
      (collectAndStore cfg env w).1.inst = w.inst.withSuccess cfg files.length
        (sinceMilliseconds env.clock.startTime env.clock.cycleEnd)
        (sinceMilliseconds env.clock.dbStartTime env.clock.dbEnd)) := by
  cases hs : (scanDirectory env.fs cfg.Collector.MountPath w).2 with
  | error err =>
    left
    obtain ⟨sp, hr⟩ := collectAndStore_scan_error cfg env w err hs
    exact ⟨err, rfl, by rw [hr], by rw [hr]; rfl⟩
  | ok files =>
    right
    rcases collectAndStore_scan_ok cfg env w files hs with
      ⟨hn, db, l, sp, hr, _⟩ | ⟨hn, db, l, sp, e, hr, _⟩
    · right
      exact ⟨files, rfl, hn, by rw [hr], by rw [hr]; rfl⟩
    · left
      exact ⟨files, rfl, hn, ⟨e, by rw [hr]⟩, by rw [hr]; rfl⟩

/-- C6: cycle accounting, identical with and without a tracer. Every cycle
falls in one of three cases. The scan fails: the cycle returns an error and the
only change to the instruments is one `collectionErrors.Add 1` with
`error_type=scan_error` and the node name. The scan succeeds and the store
rejects a statement: the cycle returns an error and the only change is one
`collectionErrors.Add 1` with `error_type=db_error` and the node name. The scan
succeeds with `n` files and the store accepts everything: the cycle returns nil,
`collectionCount` gets 1, `collectionFiles` gets `n`, each histogram gets one
record, all tagged with the node name, and `collectionErrors` is untouched. The
instruments after the cycle are the same whether the tracer is set or not. -/
theorem cycle_accounting (cfg : Config) (env : CycleEnv) (w : World) :
    ((∃ err, (scanDirectory env.fs cfg.Collector.MountPath w).2 = .error err ∧
        (collectAndStore cfg env w).2 = some (.wrap "디렉토리 스캔 실패" err) ∧
        (collectAndStore cfg env w).1.inst = w.inst.withError cfg "scan_error") ∨
      (∃ files, (scanDirectory env.fs cfg.Collector.MountPath w).2 = .ok files ∧
        ¬ env.faults.noneFor files.length ∧
        (∃ e, (collectAndStore cfg env w).2 = some (.wrap "데이터베이스 저장 실패" e)) ∧
        (collectAndStore cfg env w).1.inst = w.inst.withError cfg "db_error") ∨
      (∃ files, (scanDirectory env.fs cfg.Collector.MountPath w).2 = .ok files ∧
        env.faults.noneFor files.length ∧
        (collectAndStore cfg env w).2 = none ∧
        (collectAndStore cfg env w).1.inst = w.inst.withSuccess cfg files.length
          (sinceMilliseconds env.clock.startTime env.clock.cycleEnd)
          (sinceMilliseconds env.clock.dbStartTime env.clock.dbEnd))) ∧
    (collectAndStore cfg env { w with tracerSet := true }).1.inst
      = (collectAndStore cfg env { w with tracerSet := false }).1.inst ∧
    ((collectAndStore cfg env { w with tracerSet := true }).2 = none ↔
      (collectAndStore cfg env { w with tracerSet := false }).2 = none) := by
  refine ⟨collectAndStore_inst cfg env w, ?_⟩
  have hT := collectAndStore_inst cfg env { w with tracerSet := true }
  have hF := collectAndStore_inst cfg env { w with tracerSet := false }
  have hsnd := scanDirectory_snd env.fs cfg.Collector.MountPath
    { w with tracerSet := true } { w with tracerSet := false }
  rcases hT with ⟨e1, hs1, hr1, hi1⟩ | ⟨f1, hs1, hn1, ⟨e1, hr1⟩, hi1⟩ | ⟨f1, hs1, hn1, hr1, hi1⟩ <;>
  rcases hF with ⟨e2, hs2, hr2, hi2⟩ | ⟨f2, hs2, hn2, ⟨e2, hr2⟩, hi2⟩ | ⟨f2, hs2, hn2, hr2, hi2⟩ <;>
  rw [hs1, hs2] at hsnd <;>
  cases hsnd <;>
  first
  | exact absurd hn2 hn1
  | exact absurd hn1 hn2
  | (rw [hi1, hi2, hr1, hr2]; simp)

/-! ## The timestamp of a snapshot -/

/-- C10 as stated fails. A cycle without a tracer whose clock reads 1 ms at
cycle start and 3 ms inside `saveToDatabase` commits a snapshot whose
`CollectedAt` is 3 ms: neither the cycle start nor the cycle start cut to
milliseconds. -/
theorem collectedAt_differs_from_cycle_start :
    (collectAndStore exampleConfig ⟨exampleFS, exampleClock, noFaults⟩
        (World.initial emptyDB)).2 = none ∧
    (collectAndStore exampleConfig ⟨exampleFS, exampleClock, noFaults⟩
        (World.initial emptyDB)).1.db.file_collections
      = [{ ID := 1, NodeName := "node-1", MountPath := "/mnt/harman",
           CollectedAt := 3000000, FileCount := 2 }] ∧
    exampleClock.startTime = 1000000 ∧
    ¬ (∀ row ∈ (collectAndStore exampleConfig ⟨exampleFS, exampleClock, noFaults⟩
          (World.initial emptyDB)).1.db.file_collections,
        row.CollectedAt = exampleClock.startTime) ∧
    ¬ (∀ row ∈ (collectAndStore exampleConfig ⟨exampleFS, exampleClock, noFaults⟩
          (World.initial emptyDB)).1.db.file_collections,
        row.CollectedAt = datetime3 exampleClock.startTime) := by
  decide

/-- C10 amended: for every cycle that commits a snapshot (it returns nil), with
or without a tracer, exactly one row is added to `file_collections`; its
`CollectedAt` is the clock reading taken inside `saveToDatabase` when the row
is built, cut to whole milliseconds as the `datetime(3)` column stores it (so
at most that reading and less than a millisecond before it); its `NodeName` and
`MountPath` are the configured ones; and when the clock has not run backwards
between cycle start and that reading, `CollectedAt` is not earlier than the
cycle start cut to whole milliseconds. -/
theorem collectedAt_is_save_time (cfg : Config) (env : CycleEnv) (w : World)
    (hcommit : (collectAndStore cfg env w).2 = none) :
    ∃ row : FileCollection,
      (collectAndStore cfg env w).1.db.file_collections = w.db.file_collections ++ [row] ∧
      row.CollectedAt = datetime3 env.clock.saveNow ∧
      row.CollectedAt ≤ env.clock.saveNow ∧
      env.clock.saveNow < row.CollectedAt + 1000000 ∧
      row.NodeName = cfg.NodeName ∧
      row.MountPath = cfg.Collector.MountPath ∧
      row.ID = w.db.nextCollectionID ∧
      (env.clock.startTime ≤ env.clock.saveNow →
        datetime3 env.clock.startTime ≤ row.CollectedAt) := by
  cases hs : (scanDirectory env.fs cfg.Collector.MountPath w).2 with
  | error err =>
    obtain ⟨sp, hr⟩ := collectAndStore_scan_error cfg env w err hs
    rw [hr] at hcommit
    cases hcommit
  | ok files =>
    rcases collectAndStore_scan_ok cfg env w files hs with
      ⟨_, db, l, sp, hr, hfc, _⟩ | ⟨_, db, l, sp, e, hr, _⟩
    · refine ⟨snapshotRow cfg env.clock.saveNow files w.db, ?_, rfl, ?_, ?_, rfl, rfl, rfl, ?_⟩
      · rw [hr]; exact hfc
      · show datetime3 env.clock.saveNow ≤ env.clock.saveNow
        unfold datetime3; omega
      · show env.clock.saveNow < datetime3 env.clock.saveNow + 1000000
        unfold datetime3; omega
      · intro hclock
        show datetime3 env.clock.startTime ≤ datetime3 env.clock.saveNow
        unfold datetime3; omega
    · rw [hr] at hcommit
      cases hcommit

/-- C10 amended, on a cycle that is over within one millisecond: the cycle
starts at 1.0009 ms, the row is built at 1.00095 ms, the committed
`CollectedAt` is 1 ms. -/
theorem collectedAt_is_save_time_witness :
    (collectAndStore exampleConfig ⟨exampleFS, fastClock, noFaults⟩
        (World.initial emptyDB)).2 = none ∧
    fastClock.startTime = 1000900 ∧
    ∃ row : FileCollection,
      (collectAndStore exampleConfig ⟨exampleFS, fastClock, noFaults⟩
          (World.initial emptyDB)).1.db.file_collections
        = (World.initial emptyDB).db.file_collections ++ [row] ∧
      row.CollectedAt = datetime3 1000950 ∧
      row.CollectedAt ≤ 1000950 ∧
      1000950 < row.CollectedAt + 1000000 ∧
      row.NodeName = "node-1" ∧
      row.MountPath = "/mnt/harman" ∧
      row.ID = 1 ∧
      (fastClock.startTime ≤ 1000950 → datetime3 fastClock.startTime ≤ row.CollectedAt) :=
  ⟨by decide, by decide,
   collectedAt_is_save_time exampleConfig ⟨exampleFS, fastClock, noFaults⟩
     (World.initial emptyDB) (by decide)⟩

/-! ## The run loop -/

/-- Every call of `collectAndStore` is counted once. -/
theorem collectAndStore_cycleCalls (cfg : Config) (env : CycleEnv) (w : World) :
    (collectAndStore cfg env w).1.cycleCalls = w.cycleCalls + 1 := by
  cases hs : (scanDirectory env.fs cfg.Collector.MountPath w).2 with
  | error err =>
    obtain ⟨sp, hr⟩ := collectAndStore_scan_error cfg env w err hs
    rw [hr]; rfl
  | ok files =>
    rcases collectAndStore_scan_ok cfg env w files hs with
      ⟨_, db, l, sp, hr, _⟩ | ⟨_, db, l, sp, e, hr, _⟩ <;> (rw [hr]; rfl)

/-- Running the loop over a schedule in two parts. -/
theorem startLoop_append (cfg : Config) (ctxErr : GoError) (envs : Nat → CycleEnv)
    (pre post : List Select) (w : World) :
    startLoop cfg ctxErr envs (pre ++ post) w
      = if (startLoop cfg ctxErr envs pre w).2 = .running
        then startLoop cfg ctxErr envs post (startLoop cfg ctxErr envs pre w).1
        else startLoop cfg ctxErr envs pre w := by
  induction pre generalizing w with
  | nil => simp [startLoop]
  | cons e es ih =>
    simp only [List.cons_append, startLoop]
    cases e.chosen with
    | ctxDone => simp
    | tickerC =>
      cases hc : collectAndStore cfg (envs w.cycleCalls) w with
      | mk w1 res => cases res <;> simp [ih]
    | blocked => simp [ih]

/-- The loop never panics, and returns nothing but the cancellation error, and
only at a `select` that found the context cancelled. -/
theorem startLoop_outcome (cfg : Config) (ctxErr : GoError) (envs : Nat → CycleEnv)
    (sched : List Select) (w : World) :
    (startLoop cfg ctxErr envs sched w).2 = .running ∨
    ((startLoop cfg ctxErr envs sched w).2 = .returned ctxErr ∧ ∃ e ∈ sched, e.done = true) := by
  induction sched generalizing w with
  | nil => exact Or.inl rfl
  | cons e es ih =>
    simp only [startLoop]
    cases hch : e.chosen with
    | ctxDone =>
      right
      refine ⟨rfl, e, List.mem_cons_self _ _, ?_⟩
      cases hd : e.done with
      | true => rfl
      | false => simp [Select.chosen, hd] at hch; split at hch <;> cases hch
    | tickerC =>
      cases hc : collectAndStore cfg (envs w.cycleCalls) w with
      | mk w1 res =>
        cases res with
        | none =>
          rcases ih w1 with h | ⟨h, e1, he1, hd⟩
          · exact Or.inl h
          · exact Or.inr ⟨h, e1, List.mem_cons_of_mem _ he1, hd⟩
        | some err =>
          rcases ih (w1.log .Error "파일 수집 실패") with h | ⟨h, e1, he1, hd⟩
          · exact Or.inl h
          · exact Or.inr ⟨h, e1, List.mem_cons_of_mem _ he1, hd⟩
    | blocked =>
      rcases ih w with h | ⟨h, e1, he1, hd⟩
      · exact Or.inl h
      · exact Or.inr ⟨h, e1, List.mem_cons_of_mem _ he1, hd⟩

theorem afterFirstCycle_cycleCalls (cfg : Config) (envs : Nat → CycleEnv) (w : World) :
    (afterFirstCycle cfg envs w).cycleCalls = w.cycleCalls + 1 := by
  have h := collectAndStore_cycleCalls cfg (envs (w.log .Info "파일 수집기 시작").cycleCalls)
    (w.log .Info "파일 수집기 시작")
  unfold afterFirstCycle
  cases hc : collectAndStore cfg (envs (w.log .Info "파일 수집기 시작").cycleCalls)
      (w.log .Info "파일 수집기 시작") with
  | mk w1 res =>
    rw [hc] at h
    cases res <;> simpa [World.log] using h

theorem Start_eq (cfg : Config) (ctxErr : GoError) (envs : Nat → CycleEnv)
    (sched : List Select) (w : World) :
    Start cfg ctxErr envs sched w
      = if cfg.Collector.CollectInterval ≤ 0
        then (afterFirstCycle cfg envs w, .panicked "non-positive interval for NewTicker")
        else startLoop cfg ctxErr envs sched (afterFirstCycle cfg envs w) := rfl

/-- With a positive interval `Start` runs a cycle on entry whatever its
outcome, never panics, and returns only the cancellation error and only after
a `select` found the context cancelled. -/
theorem Start_positive_interval (cfg : Config) (ctxErr : GoError) (envs : Nat → CycleEnv)
    (sched : List Select) (w : World) (hpos : 0 < cfg.Collector.CollectInterval) :
    w.cycleCalls + 1 ≤ (Start cfg ctxErr envs [] w).1.cycleCalls ∧
    ((Start cfg ctxErr envs sched w).2 = .running ∨
      ((Start cfg ctxErr envs sched w).2 = .returned ctxErr ∧ ∃ e ∈ sched, e.done = true)) := by
  simp only [Start_eq, if_neg (not_le.mpr hpos)]
  refine ⟨?_, startLoop_outcome cfg ctxErr envs sched _⟩
  simp [startLoop, afterFirstCycle_cycleCalls]

/-- C8 as stated fails. The second cycle is still running when the context is
cancelled and the next tick falls due; the `select` that follows finds both
cases ready and the runtime picks the tick: a third cycle runs after
cancellation, and `Start` returns only at the `select` after that. -/
theorem cycle_runs_after_cancellation :
    (Start exampleConfig contextCanceled exampleCycles [⟨false, true, false⟩]
        (World.initial emptyDB)).1.cycleCalls = 2 ∧
    (⟨true, true, true⟩ : Select).done = true ∧
    (⟨true, true, true⟩ : Select).tick = true ∧
    (Start exampleConfig contextCanceled exampleCycles
        [⟨false, true, false⟩, ⟨true, true, true⟩, ⟨true, false, false⟩]
        (World.initial emptyDB)).2 = .returned contextCanceled ∧
    (Start exampleConfig contextCanceled exampleCycles
        [⟨false, true, false⟩, ⟨true, true, true⟩, ⟨true, false, false⟩]
        (World.initial emptyDB)).1.cycleCalls = 3 := by
  decide

/-- C8 amended: with a positive interval, when `Start` is in its loop after
the schedule `pre` and the next `select` finds the context cancelled, there are
two cases. Unless a tick is pending at that moment and the runtime picks it,
`Start` returns the cancellation error there without calling
`collectAndStore` again: the world is the one reached after `pre` plus the
shutdown log line; cancelled so at the first `select`, `Start` has run exactly
one cycle. When a tick is pending and the runtime picks it, that iteration
calls `collectAndStore` exactly once more and `Start` stays in its loop, going
on with the rest of the schedule from there. -/
theorem no_cycle_after_cancellation (cfg : Config) (ctxErr : GoError)
    (envs : Nat → CycleEnv) (pre rest : List Select) (e : Select) (w : World)
    (hpos : 0 < cfg.Collector.CollectInterval)
    (hrun : (Start cfg ctxErr envs pre w).2 = .running)
    (hdone : e.done = true) :
    ((e.tick && e.pickTick) = false →
      Start cfg ctxErr envs (pre ++ e :: rest) w
        = ((Start cfg ctxErr envs pre w).1.log .Info "파일 수집기 종료 신호 수신",
            .returned ctxErr) ∧
      (Start cfg ctxErr envs (pre ++ e :: rest) w).1.cycleCalls
        = (Start cfg ctxErr envs pre w).1.cycleCalls ∧
      (Start cfg ctxErr envs (e :: rest) w).1.cycleCalls = w.cycleCalls + 1) ∧
    ((e.tick && e.pickTick) = true →
      (Start cfg ctxErr envs (pre ++ [e]) w).2 = .running ∧
      (Start cfg ctxErr envs (pre ++ [e]) w).1.cycleCalls
        = (Start cfg ctxErr envs pre w).1.cycleCalls + 1 ∧
      Start cfg ctxErr envs (pre ++ e :: rest) w
        = startLoop cfg ctxErr envs rest (Start cfg ctxErr envs (pre ++ [e]) w).1) := by
  simp only [Start_eq, if_neg (not_le.mpr hpos)] at hrun ⊢
  constructor
  · intro hpick
    have hch : e.chosen = .ctxDone := by
      cases ht : e.tick <;> cases hp : e.pickTick <;> simp_all [Select.chosen]
    have h1 : startLoop cfg ctxErr envs (pre ++ e :: rest) (afterFirstCycle cfg envs w)
        = ((startLoop cfg ctxErr envs pre (afterFirstCycle cfg envs w)).1.log .Info
            "파일 수집기 종료 신호 수신", .returned ctxErr) := by
      rw [startLoop_append, if_pos hrun]
      simp [startLoop, hch]
    refine ⟨h1, by rw [h1]; rfl, ?_⟩
    simp [startLoop, hch, World.log, afterFirstCycle_cycleCalls]
  · intro hpick
    have hch : e.chosen = .tickerC := by
      cases ht : e.tick <;> cases hp : e.pickTick <;> simp_all [Select.chosen]
    have hcc := collectAndStore_cycleCalls cfg
      (envs (startLoop cfg ctxErr envs pre (afterFirstCycle cfg envs w)).1.cycleCalls)
      (startLoop cfg ctxErr envs pre (afterFirstCycle cfg envs w)).1
    have h1 : (startLoop cfg ctxErr envs (pre ++ [e]) (afterFirstCycle cfg envs w)).2
          = .running ∧
        (startLoop cfg ctxErr envs (pre ++ [e]) (afterFirstCycle cfg envs w)).1.cycleCalls
          = (startLoop cfg ctxErr envs pre (afterFirstCycle cfg envs w)).1.cycleCalls + 1 := by
      rw [startLoop_append, if_pos hrun]
      simp only [startLoop, hch]
      cases hc : collectAndStore cfg
          (envs (startLoop cfg ctxErr envs pre (afterFirstCycle cfg envs w)).1.cycleCalls)
          (startLoop cfg ctxErr envs pre (afterFirstCycle cfg envs w)).1 with
      | mk w1 res =>
        rw [hc] at hcc
        cases res <;> exact ⟨rfl, by simpa [World.log] using hcc⟩
    refine ⟨h1.1, h1.2, ?_⟩
    have happ : pre ++ e :: rest = (pre ++ [e]) ++ rest := by simp
    rw [happ, startLoop_append cfg ctxErr envs (pre ++ [e]) rest, if_pos h1.1]

/-- C8 amended, on a run whose second cycle is running when the context is
cancelled: with no tick picked `Start` returns after two cycles; with a pending
tick picked a third cycle runs and `Start` is still in its loop. -/
theorem no_cycle_after_cancellation_witness :
    0 < exampleConfig.Collector.CollectInterval ∧
    (Start exampleConfig contextCanceled exampleCycles [⟨false, true, false⟩]
        (World.initial emptyDB)).2 = .running ∧
    (⟨true, false, false⟩ : Select).done = true ∧
    (⟨true, true, true⟩ : Select).done = true ∧
    (Start exampleConfig contextCanceled exampleCycles
        ([⟨false, true, false⟩] ++ ⟨true, false, false⟩ :: [⟨true, true, true⟩])
        (World.initial emptyDB)).2 = .returned contextCanceled ∧
    (Start exampleConfig contextCanceled exampleCycles
        ([⟨false, true, false⟩] ++ ⟨true, false, false⟩ :: [⟨true, true, true⟩])
        (World.initial emptyDB)).1.cycleCalls = 2 ∧
    (Start exampleConfig contextCanceled exampleCycles
        ([⟨false, true, false⟩] ++ [⟨true, true, true⟩])
        (World.initial emptyDB)).2 = .running ∧
    (Start exampleConfig contextCanceled exampleCycles
        ([⟨false, true, false⟩] ++ [⟨true, true, true⟩])
        (World.initial emptyDB)).1.cycleCalls = 3 :=
  have hA := (no_cycle_after_cancellation exampleConfig contextCanceled exampleCycles
    [⟨false, true, false⟩] [⟨true, true, true⟩] ⟨true, false, false⟩ (World.initial emptyDB)
    (by decide) (by decide) (by decide)).1 (by decide)
  have hB := (no_cycle_after_cancellation exampleConfig contextCanceled exampleCycles
    [⟨false, true, false⟩] [] ⟨true, true, true⟩ (World.initial emptyDB)
    (by decide) (by decide) (by decide)).2 (by decide)
  ⟨by decide, by decide, by decide, by decide, by rw [hA.1], by rw [hA.2.1]; decide,
   hB.1, by rw [hB.2.1]; decide⟩

/-! ## Configuration and the ticker -/

/-- `Start` with a non-positive interval runs its first cycle and panics. -/
theorem Start_nonpositive_interval (cfg : Config) (ctxErr : GoError) (envs : Nat → CycleEnv)
    (sched : List Select) (w : World) (h : cfg.Collector.CollectInterval ≤ 0) :
    (Start cfg ctxErr envs sched w).2 = .panicked "non-positive interval for NewTicker" ∧
    (Start cfg ctxErr envs sched w).1.cycleCalls = w.cycleCalls + 1 := by
  rw [Start_eq, if_pos h]
  exact ⟨rfl, afterFirstCycle_cycleCalls cfg envs w⟩

/-- C9 fails on the code: with COLLECT_INTERVAL_MINUTES=0 (and NODE_NAME set)
`LoadConfig` returns a configuration, whose interval is 0; `Start` on it, for
every schedule, context and cycle outcome, runs its first cycle and then panics
in `time.NewTicker` instead of waiting for cancellation. -/
theorem zero_interval_accepted_then_Start_panics :
    ∃ cfg, LoadConfig zeroIntervalEnv = .ok cfg ∧
      cfg.Collector.CollectInterval = 0 ∧
      ∀ (ctxErr : GoError) (envs : Nat → CycleEnv) (sched : List Select) (w : World),
        (Start cfg ctxErr envs sched w).2 = .panicked "non-positive interval for NewTicker" ∧
        (Start cfg ctxErr envs sched w).1.cycleCalls = w.cycleCalls + 1 :=
  ⟨{ exampleConfig with Collector := { MountPath := "/mnt/harman", CollectInterval := 0 } },
   by rfl, rfl,
   fun ctxErr envs sched w => Start_nonpositive_interval _ ctxErr envs sched w (le_refl _)⟩

/-! ## Startup -/

/-- A failed `InitTelemetry` leaves the world, and so the package variables
`tracer` and `meter`, as they were. -/
theorem InitTelemetry_error (te : TelemetryEnv) (w : World) (err : GoError)
    (h : (InitTelemetry te w).2 = some err) : (InitTelemetry te w).1 = w := by
  unfold InitTelemetry at h ⊢
  cases h1 : te.resourceNew with
  | some e => rfl
  | none =>
    cases h2 : te.traceExporterNew with
    | some e => rfl
    | none =>
      cases h3 : te.metricExporterNew with
      | some e => rfl
      | none => simp [h1, h2, h3] at h

/-- Whenever configuration, connection and migration succeed and
`InitTelemetry` fails, `main` started from a fresh process logs the warning,
then fails in `NewCollector` and exits with code 1 without running a cycle. -/
theorem main_telemetry_failure (env : MainEnv) (db : DB) (cfg : Config) (err : GoError)
    (hcfg : LoadConfig env.getenv = .ok cfg) (hdb : env.newDB = none)
    (hmig : env.migrateDB = none)
    (htel : ∀ w, (InitTelemetry env.telemetry w).2 = some err) :
    (main env (World.initial db)).2 = .exit 1 ∧
    (main env (World.initial db)).1.cycleCalls = 0 ∧
    (main env (World.initial db)).1.db = db ∧
    (main env (World.initial db)).1.logs
      = [⟨.Info, "로거 초기화 완료"⟩, ⟨.Info, "로거 초기화 완료"⟩, ⟨.Info, "설정 로드 완료"⟩,
         ⟨.Warn, "OpenTelemetry 초기화 실패"⟩, ⟨.Error, "파일 수집기 생성 실패"⟩] := by
  have hw := fun w => InitTelemetry_error env.telemetry w err (htel w)
  have hpair : ∀ w, InitTelemetry env.telemetry w = (w, some err) :=
    fun w => Prod.ext (hw w) (htel w)
  simp only [main, hcfg, hdb, hmig, hpair]
  simp [NewCollector, World.log, World.initial]

/-- C7 fails on the code: in a startup where configuration, connection and
migration succeed and `InitTelemetry` returns an error, `main` logs the warning,
but `NewCollector` then rejects the nil meter and `main` exits with code 1; no
cycle runs and nothing is persisted. The same startup with telemetry
initialised runs its cycles and exits with code 0. -/
theorem telemetry_failure_is_fatal :
    (InitTelemetry telemetryDownEnv.telemetry (World.initial emptyDB)).2
      = some (.wrap "트레이스 익스포터 생성 실패" (.leaf "trace exporter unavailable")) ∧
    (main telemetryDownEnv (World.initial emptyDB)).2 = .exit 1 ∧
    (main telemetryDownEnv (World.initial emptyDB)).1.cycleCalls = 0 ∧
    (main telemetryDownEnv (World.initial emptyDB)).1.db = emptyDB ∧
    (main telemetryDownEnv (World.initial emptyDB)).1.logs
      = [⟨.Info, "로거 초기화 완료"⟩, ⟨.Info, "로거 초기화 완료"⟩, ⟨.Info, "설정 로드 완료"⟩,
         ⟨.Warn, "OpenTelemetry 초기화 실패"⟩, ⟨.Error, "파일 수집기 생성 실패"⟩] ∧
    (main { telemetryDownEnv with telemetry := ⟨none, none, none⟩ }
        (World.initial emptyDB)).2 = .exit 0 ∧
    (main { telemetryDownEnv with telemetry := ⟨none, none, none⟩ }
        (World.initial emptyDB)).1.cycleCalls = 2 := by
  decide

/-! ## Batches at work -/

set_option maxRecDepth 100000 in
/-- With 250 file names and a store that rejects the second child batch, the
call returns the wrapped error after three statements (1, 100 and 100 rows) and
both tables stay empty. -/
theorem saveToDatabase_mid_batch_failure :
    (saveToDatabase exampleConfig
        ⟨none, fun k => if k = 2 then some (.leaf "deadlock") else none, none⟩ 5000
        (List.replicate 250 "f") (World.initial emptyDB)).2
      = some (.wrap "collected_files 배치 삽입 실패" (.leaf "deadlock")) ∧
    (saveToDatabase exampleConfig
        ⟨none, fun k => if k = 2 then some (.leaf "deadlock") else none, none⟩ 5000
        (List.replicate 250 "f") (World.initial emptyDB)).1.db
      = { emptyDB with nextCollectionID := 2, nextFileID := 101, statementLog := [1, 100, 100] } := by
  decide

set_option maxRecDepth 100000 in
/-- With 250 file names and a store that accepts everything, the child rows
go out in batches of 100, 100 and 50 and all 250 are committed. -/
theorem saveToDatabase_250 :
    (saveToDatabase exampleConfig noFaults 5000 (List.replicate 250 "f")
        (World.initial emptyDB)).2 = none ∧
    (saveToDatabase exampleConfig noFaults 5000 (List.replicate 250 "f")
        (World.initial emptyDB)).1.db.statementLog = [1, 100, 100, 50] ∧
    (saveToDatabase exampleConfig noFaults 5000 (List.replicate 250 "f")
        (World.initial emptyDB)).1.db.collected_files.length = 250 := by
  decide

end Harman
